import Mathlib

/-!
Verification of the uniqueness-resolution and batch-ingestion engine of the
string_authority_db repository (`uniqueness_management_system.py`).

The Python code is shallowly embedded: dictionaries become structures with
`Option` fields (`none` models an absent or JSON-null field), the relational
store becomes an explicit `DB` value threaded through every operation, and
the confidence arithmetic is carried out in `ℚ`.  Every reachable confidence
value compared against a threshold in the source is far from the rounding
error of IEEE doubles, and the one exact float equality test the source
performs (`confidence == 1.0`) agrees with exact rational arithmetic at every
reachable accumulated sum (in particular `0.3 + 0.4 + 0.3 == 1.0` holds
exactly for doubles just as it does in `ℚ`), so the rational embedding is
decision-equivalent to the floating-point original.
-/

namespace StringAuthority

/-! ## String utilities (`normalize_string`, Python truthiness) -/

/-- Python whitespace characters recognised by `str.split()` (ASCII range). -/
def pyIsSpace (c : Char) : Bool :=
  c = ' ' || c = '\t' || c = '\n' || c = '\r' || c = '\x0b' || c = '\x0c'

/-- `str.lower()` restricted to ASCII, which is all the engine compares. -/
def pyLower (s : String) : String :=
  String.mk (s.data.map Char.toLower)

/-- Word accumulator for `splitWords` (current word carried reversed). -/
def splitWordsAux : List Char → List Char → List (List Char)
  | [], acc => if acc.isEmpty then [] else [acc.reverse]
  | c :: rest, acc =>
    if pyIsSpace c then
      if acc.isEmpty then splitWordsAux rest []
      else acc.reverse :: splitWordsAux rest []
    else splitWordsAux rest (c :: acc)

/-- `str.split()` with no argument: split on runs of whitespace, dropping
empty words (this also subsumes the `strip()` the source applies first). -/
def splitWords (l : List Char) : List (List Char) :=
  splitWordsAux l []

/-- `" ".join(words)`. -/
def joinSpace : List (List Char) → List Char
  | [] => []
  | [w] => w
  | w :: ws => w ++ ' ' :: joinSpace ws

/-- `GuitarDataValidator.normalize_string`: lowercase, strip, collapse
internal whitespace runs to single spaces. -/
def normalize_string (text : String) : String :=
  String.mk (joinSpace (splitWords (pyLower text).data))

/-- Truthiness of an optional string (`None` and `""` are falsy). -/
def strTruthy : Option String → Bool
  | none => false
  | some s => s ≠ ""

/-- Truthiness of an optional integer (`None` and `0` are falsy). -/
def intTruthy : Option Int → Bool
  | none => false
  | some n => n ≠ 0

/-- SQL `LOWER(col) = LOWER(%s)` where either side may be NULL: a NULL on
either side makes the comparison fail. -/
def sqlLowerEq (col param : Option String) : Bool :=
  match col, param with
  | some a, some b => pyLower a = pyLower b
  | _, _ => false

/-- Head-of-list matching used by the substring test below. -/
def headMatch : List Char → List Char → Bool
  | [], _ => true
  | _ :: _, [] => false
  | a :: as, b :: bs => a = b && headMatch as bs

/-- Python's `pat in s` substring containment, on character lists. -/
def containsL (pat : List Char) : List Char → Bool
  | [] => headMatch pat []
  | c :: rest => headMatch pat (c :: rest) || containsL pat rest

/-- Substring containment used by the batch summary aggregation. -/
def strContains (s pat : String) : Bool :=
  containsL pat.data s.data

/-! ## `difflib.SequenceMatcher` (no junk: the compared strings are short)

`find_longest_match` returns, among all maximal matching blocks, the one
starting earliest in `a` and then earliest in `b`; `ratio` is the
Ratcliff–Obershelp measure `2*M/T` obtained by recursing on both sides of
that block, with the documented convention that two empty sequences have
ratio 1. -/

/-- Length of the common prefix of two character lists: the length of the
matching block that starts at a given pair of positions. -/
def commonRun : List Char → List Char → Nat
  | a :: as, b :: bs => if a = b then commonRun as bs + 1 else 0
  | _, _ => 0

theorem commonRun_le_left : ∀ x y : List Char, commonRun x y ≤ x.length := by
  intro x
  induction x with
  | nil => intro y; cases y <;> simp [commonRun]
  | cons c cs ih =>
    intro y
    cases y with
    | nil => simp [commonRun]
    | cons d ds =>
      simp only [commonRun, List.length_cons]
      split
      · exact Nat.succ_le_succ (ih ds)
      · exact Nat.zero_le _

theorem commonRun_le_right : ∀ x y : List Char, commonRun x y ≤ y.length := by
  intro x
  induction x with
  | nil => intro y; cases y <;> simp [commonRun]
  | cons c cs ih =>
    intro y
    cases y with
    | nil => simp [commonRun]
    | cons d ds =>
      simp only [commonRun, List.length_cons]
      split
      · exact Nat.succ_le_succ (ih ds)
      · exact Nat.zero_le _

theorem commonRun_refl : ∀ x : List Char, commonRun x x = x.length := by
  intro x
  induction x with
  | nil => simp [commonRun]
  | cons c cs ih => simp [commonRun, ih]

/-- One candidate step of `find_longest_match`: the best block is replaced
only by a strictly longer match, which realises the earliest-`i`, then
earliest-`j` tie-breaking of the reference implementation. -/
def pickBlock (a b : List Char) (best : Nat × Nat × Nat) (ij : Nat × Nat) :
    Nat × Nat × Nat :=
  if commonRun (a.drop ij.1) (b.drop ij.2) > best.2.2 then
    (ij.1, ij.2, commonRun (a.drop ij.1) (b.drop ij.2))
  else best

/-- `SequenceMatcher.find_longest_match` over the whole of both sequences. -/
def findLongestBlock (a b : List Char) : Nat × Nat × Nat :=
  ((List.range a.length).flatMap fun i =>
    (List.range b.length).map fun j => (i, j)).foldl (pickBlock a b) (0, 0, 0)

/-- A `foldl` whose step preserves a predicate preserves it overall. -/
theorem foldl_preserve {α β : Type} {P : β → Prop} (f : β → α → β)
    (h : ∀ b a, P b → P (f b a)) :
    ∀ (l : List α) (init : β), P init → P (l.foldl f init) := by
  intro l
  induction l with
  | nil => intro init hi; simpa using hi
  | cons x xs ih =>
    intro init hi
    simpa using ih (f init x) (h init x hi)

/-- A `foldl` whose step fixes the accumulator on every list element is the
identity. -/
theorem foldl_fixed {α β : Type} {f : β → α → β} {b : β} :
    ∀ {l : List α}, (∀ a ∈ l, f b a = b) → l.foldl f b = b := by
  intro l
  induction l with
  | nil => intro _; simp
  | cons x xs ih =>
    intro h
    have hx : f b x = b := h x (List.mem_cons_self x xs)
    simpa [hx] using ih fun a ha => h a (List.mem_cons_of_mem x ha)

/-- The block reported by `findLongestBlock` lies inside both sequences. -/
theorem findLongestBlock_bounds (a b : List Char) :
    (findLongestBlock a b).1 + (findLongestBlock a b).2.2 ≤ a.length ∧
      (findLongestBlock a b).2.1 + (findLongestBlock a b).2.2 ≤ b.length := by
  unfold findLongestBlock
  refine foldl_preserve (P := fun t : Nat × Nat × Nat =>
    t.1 + t.2.2 ≤ a.length ∧ t.2.1 + t.2.2 ≤ b.length) _ ?_ _ _ (by simp)
  intro best ij hb
  unfold pickBlock
  split
  · rename_i hgt
    have hk1 : commonRun (a.drop ij.1) (b.drop ij.2) ≤ a.length - ij.1 := by
      simpa using commonRun_le_left (a.drop ij.1) (b.drop ij.2)
    have hk2 : commonRun (a.drop ij.1) (b.drop ij.2) ≤ b.length - ij.2 := by
      simpa using commonRun_le_right (a.drop ij.1) (b.drop ij.2)
    have hpos : 0 < commonRun (a.drop ij.1) (b.drop ij.2) :=
      Nat.lt_of_le_of_lt (Nat.zero_le _) hgt
    constructor
    · simp only
      omega
    · simp only
      omega
  · exact hb

/-- The Ratcliff–Obershelp recursion with explicit structural fuel.  Each
recursive call strictly shrinks the combined length of the two sides by
`findLongestBlock_bounds`, so fuel equal to the combined length of the
inputs always suffices and the fuel never alters the computed value. -/
def matchTotalGo : Nat → List Char → List Char → Nat
  | 0, _, _ => 0
  | fuel + 1, a, b =>
    if (findLongestBlock a b).2.2 = 0 then 0
    else
      matchTotalGo fuel (a.take (findLongestBlock a b).1)
          (b.take (findLongestBlock a b).2.1) +
        (findLongestBlock a b).2.2 +
        matchTotalGo fuel
          (a.drop ((findLongestBlock a b).1 + (findLongestBlock a b).2.2))
          (b.drop ((findLongestBlock a b).2.1 + (findLongestBlock a b).2.2))

/-- Total number of matched characters across all matching blocks
(the `M` of `SequenceMatcher.ratio`). -/
def matchTotal (a b : List Char) : Nat :=
  matchTotalGo (a.length + b.length) a b

/-- `SequenceMatcher.ratio`: `2*M/T`, with ratio 1 for two empty sequences. -/
def simRatio (a b : List Char) : ℚ :=
  if a.length + b.length = 0 then 1
  else 2 * (matchTotal a b : ℚ) / ((a.length : ℚ) + (b.length : ℚ))

/-- `GuitarDataValidator.calculate_similarity`. -/
def calculate_similarity (s1 s2 : String) : ℚ :=
  simRatio (normalize_string s1).data (normalize_string s2).data

/-- Any block found on a pair of positions other than the diagonal origin of
two equal lists is strictly shorter than the whole list. -/
theorem commonRun_offdiag_lt (l : List Char) (ij : Nat × Nat)
    (hne : ij ≠ (0, 0)) (hn : 0 < l.length) :
    commonRun (l.drop ij.1) (l.drop ij.2) < l.length := by
  rcases Nat.eq_zero_or_pos ij.1 with h1 | h1
  · rcases Nat.eq_zero_or_pos ij.2 with h2 | h2
    · exact absurd (Prod.ext h1 h2) hne
    · have := commonRun_le_right (l.drop ij.1) (l.drop ij.2)
      simp only [List.length_drop] at this
      omega
  · have := commonRun_le_left (l.drop ij.1) (l.drop ij.2)
    simp only [List.length_drop] at this
    omega

theorem foldl_pickBlock_diag (l : List Char) (hn : 0 < l.length) :
    ∀ (pairs : List (Nat × Nat)) (best : Nat × Nat × Nat),
      (best = (0, 0, l.length) ∨ (best.2.2 < l.length ∧ (0, 0) ∈ pairs)) →
      pairs.foldl (pickBlock l l) best = (0, 0, l.length) := by
  intro pairs
  induction pairs with
  | nil =>
    intro best hb
    rcases hb with hb | ⟨_, hmem⟩
    · simpa using hb
    · simp at hmem
  | cons ij rest ih =>
    intro best hb
    obtain ⟨i, j⟩ := ij
    simp only [List.foldl_cons]
    rcases hb with hb | ⟨hlt, hmem⟩
    · subst hb
      apply ih
      left
      have hk : commonRun (l.drop i) (l.drop j) ≤ l.length := by
        have := commonRun_le_left (l.drop i) (l.drop j)
        simp only [List.length_drop] at this
        omega
      show (if commonRun (l.drop i) (l.drop j) > l.length then
        (i, j, commonRun (l.drop i) (l.drop j)) else (0, 0, l.length)) =
          (0, 0, l.length)
      rw [if_neg (by omega)]
    · by_cases hij : (i, j) = ((0 : Nat), (0 : Nat))
      · have hi : i = 0 := congrArg Prod.fst hij
        have hj : j = 0 := congrArg Prod.snd hij
        subst hi
        subst hj
        apply ih
        left
        show (if commonRun (l.drop 0) (l.drop 0) > best.2.2 then
          ((0 : Nat), (0 : Nat), commonRun (l.drop 0) (l.drop 0)) else best) =
            (0, 0, l.length)
        simp only [List.drop_zero, commonRun_refl]
        rw [if_pos (by omega)]
      · have hmem' : ((0 : Nat), (0 : Nat)) ∈ rest := by
          rcases List.mem_cons.mp hmem with h | h
          · exact absurd h.symm hij
          · exact h
        apply ih
        right
        refine ⟨?_, hmem'⟩
        show (if commonRun (l.drop i) (l.drop j) > best.2.2 then
          (i, j, commonRun (l.drop i) (l.drop j)) else best).2.2 < l.length
        split
        · exact commonRun_offdiag_lt l (i, j) hij hn
        · exact hlt

theorem findLongestBlock_refl (l : List Char) :
    findLongestBlock l l = (0, 0, l.length) := by
  cases hl : l with
  | nil => simp [findLongestBlock]
  | cons c cs =>
    rw [← hl]
    have hn : 0 < l.length := by simp [hl]
    unfold findLongestBlock
    apply foldl_pickBlock_diag l hn
    right
    refine ⟨hn, ?_⟩
    simp only [List.mem_flatMap, List.mem_map, List.mem_range]
    exact ⟨0, hn, 0, hn, rfl⟩

theorem matchTotalGo_nil (fuel : Nat) : matchTotalGo fuel [] [] = 0 := by
  cases fuel with
  | zero => rfl
  | succ f =>
    unfold matchTotalGo
    simp [findLongestBlock]

theorem matchTotal_refl (l : List Char) : matchTotal l l = l.length := by
  cases hl : l with
  | nil => simp [matchTotal, matchTotalGo]
  | cons c cs =>
    rw [← hl]
    have hn : 0 < l.length := by simp [hl]
    unfold matchTotal
    obtain ⟨m, hm⟩ : ∃ m, l.length + l.length = m + 1 :=
      ⟨l.length + l.length - 1, by omega⟩
    rw [hm]
    unfold matchTotalGo
    simp only [findLongestBlock_refl]
    rw [if_neg (by omega)]
    simp [matchTotalGo_nil, List.drop_length]

/-- Strings with equal normalisations have similarity exactly 1: the whole
of either normalised string is one matching block. -/
theorem calculate_similarity_of_normalize_eq {s1 s2 : String}
    (h : normalize_string s1 = normalize_string s2) :
    calculate_similarity s1 s2 = 1 := by
  unfold calculate_similarity simRatio
  rw [h, matchTotal_refl]
  split
  · rfl
  · rename_i hne
    have hn : 0 < (normalize_string s2).data.length := by omega
    have hq : ((normalize_string s2).data.length : ℚ) ≠ 0 := by
      exact_mod_cast Nat.pos_iff_ne_zero.mp hn
    rw [show ((normalize_string s2).data.length : ℚ) +
        ((normalize_string s2).data.length : ℚ) =
        2 * ((normalize_string s2).data.length : ℚ) from by ring]
    exact div_self (mul_ne_zero two_ne_zero hq)

/-! ## Stable descending sort (`sorted(..., key=lambda x: x[1], reverse=True)`)

Python's `sorted` is stable; a stable insertion sort on the same key produces
the identical output list. -/

/-- Insert before the first element with a strictly smaller-or-equal score
never passing a strictly larger one: stable descending insertion. -/
def insertDesc {α : Type} (key : α → ℚ) (x : α) : List α → List α
  | [] => [x]
  | y :: ys => if key x > key y then x :: y :: ys else y :: insertDesc key x ys

/-- Stable sort, descending in the given key. -/
def sortDesc {α : Type} (key : α → ℚ) (l : List α) : List α :=
  l.foldr (insertDesc key) []

theorem mem_insertDesc {α : Type} (key : α → ℚ) (x : α) (l : List α) (z : α) :
    z ∈ insertDesc key x l ↔ z = x ∨ z ∈ l := by
  induction l with
  | nil => simp [insertDesc]
  | cons y ys ih =>
    simp only [insertDesc]
    split
    · simp
    · simp [ih]
      tauto

theorem mem_sortDesc {α : Type} (key : α → ℚ) (l : List α) (z : α) :
    z ∈ sortDesc key l ↔ z ∈ l := by
  induction l with
  | nil => simp [sortDesc]
  | cons y ys ih =>
    simp only [sortDesc, List.foldr_cons] at *
    rw [mem_insertDesc, ih]
    simp

/-- Elements of a descending-sorted list never exceed the head's key. -/
def headDominates {α : Type} (key : α → ℚ) : List α → Prop
  | [] => True
  | x :: xs => ∀ z ∈ xs, key z ≤ key x

theorem insertDesc_sorted {α : Type} (key : α → ℚ) (x : α) :
    ∀ {s : List α}, s.Sorted (fun a b => key b ≤ key a) →
      (insertDesc key x s).Sorted (fun a b => key b ≤ key a) := by
  intro s
  induction s with
  | nil =>
    intro _
    simp [insertDesc]
  | cons y ys ih =>
    intro hs
    simp only [insertDesc]
    split
    · rename_i hgt
      rw [List.sorted_cons]
      refine ⟨?_, hs⟩
      intro z hz
      rcases List.mem_cons.mp hz with hz | hz
      · subst hz; exact le_of_lt hgt
      · exact le_trans (List.rel_of_sorted_cons hs z hz) (le_of_lt hgt)
    · rename_i hle
      push_neg at hle
      rw [List.sorted_cons]
      refine ⟨?_, ih hs.of_cons⟩
      intro z hz
      rw [mem_insertDesc] at hz
      rcases hz with hz | hz
      · subst hz; exact hle
      · exact List.rel_of_sorted_cons hs z hz

theorem sortDesc_sorted {α : Type} (key : α → ℚ) (l : List α) :
    (sortDesc key l).Sorted (fun x y => key y ≤ key x) := by
  induction l with
  | nil => simp [sortDesc]
  | cons x xs ih =>
    simp only [sortDesc, List.foldr_cons] at *
    exact insertDesc_sorted key x ih

theorem sortDesc_head_max {α : Type} (key : α → ℚ) (l : List α) (x : α)
    (rest : List α) (hx : sortDesc key l = x :: rest) :
    ∀ z ∈ l, key z ≤ key x := by
  intro z hz
  rw [← mem_sortDesc key l z] at hz
  rw [hx] at hz
  rcases List.mem_cons.mp hz with hz | hz
  · subst hz; exact le_refl _
  · have := sortDesc_sorted key l
    rw [hx] at this
    exact List.rel_of_sorted_cons this z hz

/-! ## Data model

Incoming payloads are structures of `Option` fields: `none` stands for a
field that is absent from the submitted JSON object or set to JSON null
(the engine treats the two alike everywhere it reads payloads, via
`dict.get`).  Catalog rows mirror the table columns, with `Option` for
nullable columns.  Identifiers are `Nat` surrogates for the UUIDs of the
store, allocated from a counter in `DB` and never zero, and rows are
appended in insertion order, which is the order unordered SQL scans and
`fetchone` observe in the embedding. -/

/-- Incoming `manufacturer` payload (fields of `MANUFACTURER_SCHEMA`). -/
structure ManufacturerData where
  name : Option String := none
  display_name : Option String := none
  country : Option String := none
  founded_year : Option Int := none
  website : Option String := none
  status : Option String := none
  notes : Option String := none
  logo_source : Option String := none
deriving Repr, DecidableEq

/-- One specification payload (fields of `SPECIFICATIONS_SCHEMA`). -/
structure SpecData where
  body_wood : Option String := none
  neck_wood : Option String := none
  fingerboard_wood : Option String := none
  scale_length_inches : Option ℚ := none
  num_frets : Option Int := none
  nut_width_inches : Option ℚ := none
  neck_profile : Option String := none
  bridge_type : Option String := none
  pickup_configuration : Option String := none
  electronics_description : Option String := none
  hardware_finish : Option String := none
  body_finish : Option String := none
  weight_lbs : Option ℚ := none
  case_included : Option Bool := none
  case_type : Option String := none
deriving Repr, DecidableEq

/-- The `specifications` member of a model payload: a single object or a
non-empty array of objects. -/
inductive SpecsField where
  | one (s : SpecData)
  | many (l : List SpecData)
deriving Repr, DecidableEq

/-- Incoming `model` payload (fields of `MODEL_SCHEMA`). -/
structure ModelData where
  manufacturer_name : Option String := none
  product_line_name : Option String := none
  name : Option String := none
  year : Option Int := none
  production_type : Option String := none
  production_start_date : Option String := none
  production_end_date : Option String := none
  estimated_production_quantity : Option Int := none
  msrp_original : Option ℚ := none
  currency : Option String := none
  description : Option String := none
  specifications : Option SpecsField := none
deriving Repr, DecidableEq

/-- The `model_reference` member of an individual-guitar payload. -/
structure ModelRef where
  manufacturer_name : Option String := none
  model_name : Option String := none
  year : Option Int := none
deriving Repr, DecidableEq

/-- Incoming `individual_guitar` payload (fields of
`INDIVIDUAL_GUITAR_SCHEMA`; the `photos` member is consumed by the image
pipeline, outside this engine, and carries no information the engine reads). -/
structure GuitarData where
  model_reference : Option ModelRef := none
  manufacturer_name_fallback : Option String := none
  model_name_fallback : Option String := none
  year_estimate : Option String := none
  description : Option String := none
  nickname : Option String := none
  serial_number : Option String := none
  production_date : Option String := none
  production_number : Option Int := none
  significance_level : Option String := none
  significance_notes : Option String := none
  current_estimated_value : Option ℚ := none
  last_valuation_date : Option String := none
  condition_rating : Option String := none
  modifications : Option String := none
  provenance_notes : Option String := none
  specifications : Option SpecData := none
deriving Repr, DecidableEq

/-- `manufacturers` table row. -/
structure ManufacturerRow where
  id : Nat
  name : Option String := none
  display_name : Option String := none
  country : Option String := none
  founded_year : Option Int := none
  website : Option String := none
  status : Option String := none
  notes : Option String := none
  created_by : Option String := none
deriving Repr, DecidableEq

/-- `product_lines` table row. -/
structure ProductLineRow where
  id : Nat
  manufacturer_id : Nat
  name : Option String := none
deriving Repr, DecidableEq

/-- `models` table row. -/
structure ModelRow where
  id : Nat
  manufacturer_id : Nat
  product_line_id : Option Nat := none
  name : Option String := none
  year : Option Int := none
  production_type : Option String := none
  production_start_date : Option String := none
  production_end_date : Option String := none
  estimated_production_quantity : Option Int := none
  msrp_original : Option ℚ := none
  currency : Option String := none
  description : Option String := none
  created_by : Option String := none
deriving Repr, DecidableEq

/-- `individual_guitars` table row. -/
structure IndividualGuitarRow where
  id : Nat
  model_id : Option Nat := none
  manufacturer_name_fallback : Option String := none
  model_name_fallback : Option String := none
  year_estimate : Option String := none
  description : Option String := none
  nickname : Option String := none
  serial_number : Option String := none
  production_date : Option String := none
  production_number : Option Int := none
  significance_level : Option String := none
  significance_notes : Option String := none
  current_estimated_value : Option ℚ := none
  condition_rating : Option String := none
  modifications : Option String := none
  provenance_notes : Option String := none
  created_by : Option String := none
deriving Repr, DecidableEq

/-- `specifications` table row: exactly one of the two parent keys is set by
the writer. -/
structure SpecificationRow where
  id : Nat
  model_id : Option Nat := none
  individual_guitar_id : Option Nat := none
  fields : SpecData := {}
deriving Repr, DecidableEq

/-- The relational store, one transaction scope: all reads and writes of a
batch run against this value, and rollback restores the value held at the
start of the call. -/
structure DB where
  manufacturers : List ManufacturerRow := []
  product_lines : List ProductLineRow := []
  models : List ModelRow := []
  individual_guitars : List IndividualGuitarRow := []
  specifications : List SpecificationRow := []
  next_id : Nat := 1
deriving Repr, DecidableEq

/-- `ConflictResolution` enumeration of the source. -/
inductive ConflictResolution where
  | MERGE
  | REPLACE
  | KEEP_EXISTING
  | MANUAL_REVIEW
deriving Repr, DecidableEq

/-- `ValidationResult` dataclass of the source. -/
structure ValidationResult where
  is_valid : Bool
  action : String
  target_id : Option Nat := none
  conflicts : List String := []
  confidence : ℚ := 0
  suggested_resolution : Option ConflictResolution := none
deriving Repr, DecidableEq

/-- `get_created_by_info`: the engine stamps rows it creates; the exact
version text is environment-dependent and never read back, the documented
fallback value stands for it. -/
def get_created_by_info : String :=
  "guitar_processor_cli_v0.1.0"

/-! ## Schema validation

Structural JSON-schema checks embedded over the typed payloads.  Checks the
typed representation makes unstatable (wrong JSON type, unknown extra keys)
are left out; `format` annotations are not enforced because the source calls
`jsonschema.validate` without a format checker.  A check returns the first
violated constraint, mirroring the single `ValidationError` a failed
`jsonschema.validate` raises. -/

def optLenLe (o : Option String) (n : Nat) : Bool :=
  match o with
  | none => true
  | some s => s.length ≤ n

def optIntBetween (o : Option Int) (lo hi : Int) : Bool :=
  match o with
  | none => true
  | some v => lo ≤ v && v ≤ hi

def optRatNonneg (o : Option ℚ) : Bool :=
  match o with
  | none => true
  | some v => 0 ≤ v

def optEnum (o : Option String) (allowed : List String) : Bool :=
  match o with
  | none => true
  | some s => allowed.contains s

/-- Constraints of `SPECIFICATIONS_SCHEMA`. -/
def specDataOk (s : SpecData) : Bool :=
  optLenLe s.body_wood 50 && optLenLe s.neck_wood 50 &&
  optLenLe s.fingerboard_wood 50 &&
  (match s.scale_length_inches with
   | none => true
   | some v => 20 ≤ v && v ≤ 30) &&
  optIntBetween s.num_frets 12 36 &&
  (match s.nut_width_inches with
   | none => true
   | some v => 1 ≤ v && v ≤ 5/2) &&
  optLenLe s.neck_profile 50 && optLenLe s.bridge_type 50 &&
  optLenLe s.pickup_configuration 150 && optLenLe s.hardware_finish 50 &&
  (match s.weight_lbs with
   | none => true
   | some v => 1 ≤ v && v ≤ 20) &&
  optLenLe s.case_type 50

/-- Constraints of `MANUFACTURER_SCHEMA`, standing in for the external
`validate_individual_components` pydantic validation that
`validate_manufacturer` delegates to (the pydantic models live outside this
repository; the schema declared alongside them in the source describes the
same shape). -/
def manufacturerSchemaError (d : ManufacturerData) : Option String :=
  match d.name with
  | none => some "name is a required property"
  | some n =>
    if n.length < 1 then some "name is too short"
    else if n.length > 100 then some "name is too long"
    else if !optLenLe d.display_name 50 then some "display_name is too long"
    else if !optLenLe d.country 50 then some "country is too long"
    else if !optIntBetween d.founded_year 1800 2030 then
      some "founded_year out of range"
    else if !optEnum d.status ["active", "defunct", "acquired"] then
      some "status not one of the allowed values"
    else none

/-- Constraints of `MODEL_SCHEMA`. -/
def modelSchemaError (d : ModelData) : Option String :=
  match d.manufacturer_name with
  | none => some "manufacturer_name is a required property"
  | some _ =>
    match d.name with
    | none => some "name is a required property"
    | some n =>
      if n.length < 1 then some "name is too short"
      else if n.length > 150 then some "name is too long"
      else
        match d.year with
        | none => some "year is a required property"
        | some y =>
          if y < 1900 || y > 2030 then some "year out of range"
          else if !optEnum d.production_type
              ["mass", "limited", "custom", "prototype", "one-off"] then
            some "production_type not one of the allowed values"
          else if !(match d.estimated_production_quantity with
                    | none => true
                    | some q => 1 ≤ q) then
            some "estimated_production_quantity below minimum"
          else if !optRatNonneg d.msrp_original then
            some "msrp_original below minimum"
          else if !optLenLe d.currency 3 then some "currency is too long"
          else
            match d.specifications with
            | none => none
            | some (.one s) =>
              if specDataOk s then none else some "specifications invalid"
            | some (.many l) =>
              if l.isEmpty then some "specifications array too short"
              else if l.all specDataOk then none
              else some "specifications invalid"

/-- Constraints of `INDIVIDUAL_GUITAR_SCHEMA`, including the `anyOf`
disjunction: a model reference, or a fallback manufacturer name paired with
a fallback model name or a description. -/
def guitarSchemaError (d : GuitarData) : Option String :=
  match d.model_reference with
  | some ref =>
    if ref.manufacturer_name.isNone then
      some "model_reference.manufacturer_name is a required property"
    else if ref.model_name.isNone then
      some "model_reference.model_name is a required property"
    else if ref.year.isNone then
      some "model_reference.year is a required property"
    else guitarFieldError d
  | none =>
    if d.manufacturer_name_fallback.isSome &&
        (d.model_name_fallback.isSome || d.description.isSome) then
      guitarFieldError d
    else some "payload matches none of the required field combinations"
where
  /-- Field-level constraints shared by both identity strategies. -/
  guitarFieldError (d : GuitarData) : Option String :=
    if !optLenLe d.manufacturer_name_fallback 100 then
      some "manufacturer_name_fallback is too long"
    else if !optLenLe d.model_name_fallback 150 then
      some "model_name_fallback is too long"
    else if !optLenLe d.year_estimate 50 then some "year_estimate is too long"
    else if !optLenLe d.nickname 50 then some "nickname is too long"
    else if !optLenLe d.serial_number 50 then some "serial_number is too long"
    else if !optEnum d.significance_level
        ["historic", "notable", "rare", "custom"] then
      some "significance_level not one of the allowed values"
    else if !optEnum d.condition_rating
        ["mint", "excellent", "very_good", "good", "fair", "poor", "relic"] then
      some "condition_rating not one of the allowed values"
    else none

/-! ## Match Finder (`GuitarDataValidator.find_*_matches`) -/

/-- A scored candidate: `(id, confidence, fetched row)`. -/
abbrev MfrMatch := Nat × ℚ × ManufacturerRow
abbrev ModelMatch := Nat × ℚ × ModelRow
abbrev GuitarMatch := Nat × ℚ × IndividualGuitarRow

/-- Confidence computed by `find_manufacturer_matches` for one candidate:
name similarity, `+0.1` for the country check, `+0.1` for the founding-year
check, each bonus taken whenever the incoming value is truthy and the
candidate value, when itself truthy, is equal. -/
def manufacturerConfidence (d : ManufacturerData) (m : ManufacturerRow) : ℚ :=
  let name_similarity := calculate_similarity (d.name.getD "") (m.name.getD "")
  let country_match :=
    if strTruthy d.country && strTruthy m.country then d.country = m.country
    else True
  let year_match :=
    if intTruthy d.founded_year && intTruthy m.founded_year then
      d.founded_year = m.founded_year
    else True
  name_similarity +
    (if country_match ∧ strTruthy d.country then 1/10 else 0) +
    (if year_match ∧ intTruthy d.founded_year then 1/10 else 0)

/-- `GuitarDataValidator.find_manufacturer_matches`: scan the non-defunct
manufacturers, score each, keep scores of at least `0.7`, sort descending. -/
def find_manufacturer_matches (db : DB) (d : ManufacturerData) :
    List MfrMatch :=
  let existing := db.manufacturers.filter fun m => m.status ≠ some "defunct"
  sortDesc (fun t => t.2.1)
    (existing.filterMap fun m =>
      if manufacturerConfidence d m ≥ 7/10 then
        some (m.id, manufacturerConfidence d m, m)
      else none)

/-- Confidence computed by `find_model_matches` for one candidate that
survived the year filter. -/
def modelConfidence (d : ModelData) (m : ModelRow) : ℚ :=
  let name_similarity := calculate_similarity (d.name.getD "") (m.name.getD "")
  let year_match :=
    if intTruthy d.year then d.year = m.year else False
  name_similarity + (if year_match then 3/10 else 0)

/-- `GuitarDataValidator.find_model_matches`: scoped to one manufacturer;
skip any candidate whose year is present and differs from a present incoming
year, score the rest, keep scores of at least `0.8`, sort descending. -/
def find_model_matches (db : DB) (d : ModelData) (manufacturer_id : Nat) :
    List ModelMatch :=
  let existing := db.models.filter fun m => m.manufacturer_id = manufacturer_id
  sortDesc (fun t => t.2.1)
    (existing.filterMap fun m =>
      if intTruthy d.year ∧ intTruthy m.year ∧ d.year ≠ m.year then none
      else if modelConfidence d m ≥ 8/10 then
        some (m.id, modelConfidence d m, m)
      else none)

/-- Confidence computed by `find_individual_guitar_matches` for one
candidate of its second tier. -/
def guitarConfidence (d : GuitarData) (model_id : Option Nat)
    (g : IndividualGuitarRow) : ℚ :=
  (if strTruthy d.production_date ∧ g.production_date.isSome ∧
      d.production_date = g.production_date then 1/2 else 0) +
  (if model_id.isNone ∧ strTruthy g.manufacturer_name_fallback then
    (3/10 : ℚ) +
      (if strTruthy d.model_name_fallback ∧ strTruthy g.model_name_fallback ∧
          pyLower (d.model_name_fallback.getD "") =
            pyLower (g.model_name_fallback.getD "") then 2/5 else 0) +
      (if strTruthy d.year_estimate ∧ strTruthy g.year_estimate ∧
          d.year_estimate = g.year_estimate then 3/10 else 0)
  else 0)

/-- Candidate rows fetched by the second tier of
`find_individual_guitar_matches`: by model id when one was resolved, else by
case-insensitive fallback manufacturer name, optionally narrowed by fallback
model name and exact year estimate. -/
def guitarCandidateRows (db : DB) (d : GuitarData) (model_id : Option Nat) :
    List IndividualGuitarRow :=
  match model_id with
  | some mid => db.individual_guitars.filter fun g => g.model_id = some mid
  | none =>
    if !strTruthy d.manufacturer_name_fallback then []
    else
      db.individual_guitars.filter fun g =>
        g.manufacturer_name_fallback.isSome &&
        sqlLowerEq g.manufacturer_name_fallback d.manufacturer_name_fallback &&
        (!strTruthy d.model_name_fallback ||
          sqlLowerEq g.model_name_fallback d.model_name_fallback) &&
        (!strTruthy d.year_estimate || g.year_estimate = d.year_estimate)

/-- Second tier of `find_individual_guitar_matches`: score the fetched
candidates, keep scores of at least `0.5`, sort descending. -/
def guitarTierTwo (db : DB) (d : GuitarData) (model_id : Option Nat) :
    List GuitarMatch :=
  sortDesc (fun t => t.2.1)
    ((guitarCandidateRows db d model_id).filterMap fun g =>
      if guitarConfidence d model_id g ≥ 1/2 then
        some (g.id, guitarConfidence d model_id g, g)
      else none)

/-- `GuitarDataValidator.find_individual_guitar_matches`: a present serial
number is looked up by exact string equality first; a hit short-circuits
with confidence `1.0`, otherwise matching falls through to the second tier. -/
def find_individual_guitar_matches (db : DB) (d : GuitarData)
    (model_id : Option Nat) : List GuitarMatch :=
  if strTruthy d.serial_number then
    match db.individual_guitars.find? fun g =>
        g.serial_number = d.serial_number with
    | some existing => [(existing.id, 1, existing)]
    | none => guitarTierTwo db d model_id
  else guitarTierTwo db d model_id

/-! ## Resolution Policy (`GuitarDataValidator.validate_*`) -/

/-- `GuitarDataValidator.validate_manufacturer`: schema check, then the
threshold policy over the best candidate score. -/
def validate_manufacturer (db : DB) (d : ManufacturerData) :
    ValidationResult :=
  match manufacturerSchemaError d with
  | some e => { is_valid := false, action := "invalid_schema", conflicts := [e] }
  | none =>
    match find_manufacturer_matches db d with
    | [] => { is_valid := true, action := "insert", confidence := 1 }
    | best :: _ =>
      if best.2.1 ≥ 95/100 then
        { is_valid := true, action := "update", target_id := some best.1,
          confidence := best.2.1, suggested_resolution := some .MERGE }
      else if best.2.1 ≥ 85/100 then
        { is_valid := true, action := "conflict", target_id := some best.1,
          confidence := best.2.1,
          conflicts :=
            ["Similar manufacturer found: " ++ (best.2.2.name.getD "")],
          suggested_resolution := some .MANUAL_REVIEW }
      else { is_valid := true, action := "insert", confidence := 1 }

/-- `GuitarDataValidator.validate_model`: schema check, manufacturer
resolution by case-insensitive name, then the threshold policy. -/
def validate_model (db : DB) (d : ModelData) : ValidationResult :=
  match modelSchemaError d with
  | some e => { is_valid := false, action := "invalid_schema", conflicts := [e] }
  | none =>
    match db.manufacturers.find? fun m =>
        sqlLowerEq m.name d.manufacturer_name with
    | none =>
      { is_valid := false, action := "missing_dependency",
        conflicts :=
          ["Manufacturer '" ++ (d.manufacturer_name.getD "") ++ "' not found"] }
    | some manufacturer =>
      match find_model_matches db d manufacturer.id with
      | [] => { is_valid := true, action := "insert", confidence := 1 }
      | best :: _ =>
        if best.2.1 ≥ 95/100 then
          { is_valid := true, action := "update", target_id := some best.1,
            confidence := best.2.1, suggested_resolution := some .MERGE }
        else if best.2.1 ≥ 85/100 then
          { is_valid := true, action := "conflict", target_id := some best.1,
            confidence := best.2.1,
            conflicts := ["Similar model found: " ++ (best.2.2.name.getD "")],
            suggested_resolution := some .MANUAL_REVIEW }
        else { is_valid := true, action := "insert", confidence := 1 }

/-- `GuitarDataValidator._resolve_model_reference`: resolve the structured
model reference to a model id through a join on the manufacturer name, or
`none` when the payload works in fallback mode or nothing matches. -/
def resolve_model_reference (db : DB) (d : GuitarData) : Option Nat :=
  match d.model_reference with
  | none => none
  | some ref =>
    (db.models.find? fun m =>
      (match db.manufacturers.find? fun f => f.id = m.manufacturer_id with
       | some f => sqlLowerEq f.name ref.manufacturer_name
       | none => false) &&
      sqlLowerEq m.name ref.model_name &&
      (match ref.year with
       | some y => m.year = some y
       | none => false)).map fun m => m.id

/-- `GuitarDataValidator.validate_individual_guitar`: schema check, hybrid
model resolution, then the policy that only a best score of exactly `1.0`
becomes an update and everything else inserts. -/
def validate_individual_guitar (db : DB) (d : GuitarData) :
    ValidationResult :=
  match guitarSchemaError d with
  | some e => { is_valid := false, action := "invalid_schema", conflicts := [e] }
  | none =>
    let model_id := resolve_model_reference db d
    match find_individual_guitar_matches db d model_id with
    | [] => { is_valid := true, action := "insert", confidence := 1 }
    | best :: _ =>
      if best.2.1 = 1 then
        { is_valid := true, action := "update", target_id := some best.1,
          confidence := best.2.1, suggested_resolution := some .MERGE }
      else { is_valid := true, action := "insert", confidence := 1 }

/-! ## Entity Writer (`GuitarDataProcessor._insert_* / _update_*`) -/

/-- Merge of one field: a present (non-null) incoming value overwrites, an
absent or null incoming value keeps the stored one. -/
def pyMerge {α : Type} (incoming stored : Option α) : Option α :=
  match incoming with
  | some v => some v
  | none => stored

/-- `GuitarDataProcessor._insert_manufacturer`. -/
def insert_manufacturer (db : DB) (d : ManufacturerData) : Nat × DB :=
  let id := db.next_id
  let row : ManufacturerRow :=
    { id := id, name := d.name, display_name := d.display_name,
      country := d.country, founded_year := d.founded_year,
      website := d.website, status := some (d.status.getD "active"),
      notes := d.notes, created_by := some get_created_by_info }
  (id, { db with manufacturers := db.manufacturers ++ [row],
                 next_id := id + 1 })

/-- The field-by-field merge `GuitarDataProcessor._update_manufacturer`
performs on its UPDATE field list (`display_name`, `country`,
`founded_year`, `website`, `status`, `notes`). -/
def mergeManufacturerRow (m : ManufacturerRow) (d : ManufacturerData) :
    ManufacturerRow :=
  { m with
    display_name := pyMerge d.display_name m.display_name,
    country := pyMerge d.country m.country,
    founded_year := pyMerge d.founded_year m.founded_year,
    website := pyMerge d.website m.website,
    status := pyMerge d.status m.status,
    notes := pyMerge d.notes m.notes }

/-- `GuitarDataProcessor._update_manufacturer`. -/
def update_manufacturer (db : DB) (manufacturer_id : Nat)
    (d : ManufacturerData) : DB :=
  { db with manufacturers := db.manufacturers.map fun m =>
      if m.id = manufacturer_id then mergeManufacturerRow m d else m }

/-- `GuitarDataProcessor._insert_model`: resolve the manufacturer id, lazily
resolve or create the product line, then insert.  `none` models the
`TypeError` the source raises when the manufacturer lookup comes back empty. -/
def insert_model (db : DB) (d : ModelData) : Option (Nat × DB) :=
  match db.manufacturers.find? fun m =>
      sqlLowerEq m.name d.manufacturer_name with
  | none => none
  | some manufacturer =>
    let plStep : Option Nat × DB :=
      if strTruthy d.product_line_name then
        match db.product_lines.find? fun pl =>
            pl.manufacturer_id = manufacturer.id &&
            sqlLowerEq pl.name d.product_line_name with
        | some pl => (some pl.id, db)
        | none =>
          (some db.next_id,
           { db with
             product_lines := db.product_lines ++
               [{ id := db.next_id, manufacturer_id := manufacturer.id,
                  name := d.product_line_name }],
             next_id := db.next_id + 1 })
      else (none, db)
    let db1 := plStep.2
    let id := db1.next_id
    let row : ModelRow :=
      { id := id, manufacturer_id := manufacturer.id,
        product_line_id := plStep.1, name := d.name, year := d.year,
        production_type := some (d.production_type.getD "mass"),
        production_start_date := d.production_start_date,
        production_end_date := d.production_end_date,
        estimated_production_quantity := d.estimated_production_quantity,
        msrp_original := d.msrp_original,
        currency := some (d.currency.getD "USD"),
        description := d.description,
        created_by := some get_created_by_info }
    some (id, { db1 with models := db1.models ++ [row], next_id := id + 1 })

/-- The field-by-field merge `GuitarDataProcessor._update_model` performs on
its UPDATE field list. -/
def mergeModelRow (m : ModelRow) (d : ModelData) : ModelRow :=
  { m with
    production_start_date := pyMerge d.production_start_date m.production_start_date,
    production_end_date := pyMerge d.production_end_date m.production_end_date,
    estimated_production_quantity :=
      pyMerge d.estimated_production_quantity m.estimated_production_quantity,
    msrp_original := pyMerge d.msrp_original m.msrp_original,
    currency := pyMerge d.currency m.currency,
    description := pyMerge d.description m.description }

/-- `GuitarDataProcessor._update_model`. -/
def update_model (db : DB) (model_id : Nat) (d : ModelData) : DB :=
  { db with models := db.models.map fun m =>
      if m.id = model_id then mergeModelRow m d else m }

/-- `GuitarDataProcessor._insert_individual_guitar`. -/
def insert_individual_guitar (db : DB) (d : GuitarData) : Nat × DB :=
  let model_id := resolve_model_reference db d
  let id := db.next_id
  let row : IndividualGuitarRow :=
    { id := id, model_id := model_id,
      manufacturer_name_fallback := d.manufacturer_name_fallback,
      model_name_fallback := d.model_name_fallback,
      year_estimate := d.year_estimate, description := d.description,
      nickname := d.nickname, serial_number := d.serial_number,
      production_date := d.production_date,
      production_number := d.production_number,
      significance_level := d.significance_level,
      significance_notes := d.significance_notes,
      current_estimated_value := d.current_estimated_value,
      condition_rating := d.condition_rating,
      modifications := d.modifications,
      provenance_notes := d.provenance_notes,
      created_by := some get_created_by_info }
  (id, { db with individual_guitars := db.individual_guitars ++ [row],
                 next_id := id + 1 })

/-- The field-by-field merge `GuitarDataProcessor._update_individual_guitar`
performs: a freshly resolvable model reference overwrites `model_id`, then
the fallback and guitar field lists merge field-by-field. -/
def mergeGuitarRow (db : DB) (g : IndividualGuitarRow) (d : GuitarData) :
    IndividualGuitarRow :=
  { g with
    model_id :=
      match resolve_model_reference db d with
      | some mid => some mid
      | none => g.model_id,
    manufacturer_name_fallback :=
      pyMerge d.manufacturer_name_fallback g.manufacturer_name_fallback,
    model_name_fallback := pyMerge d.model_name_fallback g.model_name_fallback,
    year_estimate := pyMerge d.year_estimate g.year_estimate,
    description := pyMerge d.description g.description,
    nickname := pyMerge d.nickname g.nickname,
    production_date := pyMerge d.production_date g.production_date,
    production_number := pyMerge d.production_number g.production_number,
    significance_notes := pyMerge d.significance_notes g.significance_notes,
    current_estimated_value :=
      pyMerge d.current_estimated_value g.current_estimated_value,
    condition_rating := pyMerge d.condition_rating g.condition_rating,
    modifications := pyMerge d.modifications g.modifications,
    provenance_notes := pyMerge d.provenance_notes g.provenance_notes }

/-- `GuitarDataProcessor._update_individual_guitar`. -/
def update_individual_guitar (db : DB) (guitar_id : Nat) (d : GuitarData) :
    DB :=
  { db with individual_guitars := db.individual_guitars.map fun g =>
      if g.id = guitar_id then mergeGuitarRow db g d else g }

/-- Identifiers returned by `_insert_specifications`: a bare id for a single
specification object, a list for the array form. -/
inductive SpecIds where
  | one (n : Nat)
  | many (ns : List Nat)
deriving Repr, DecidableEq

/-- `GuitarDataProcessor._insert_single_specification`. -/
def insert_single_specification (db : DB) (s : SpecData)
    (model_id individual_guitar_id : Option Nat) : Nat × DB :=
  let id := db.next_id
  let row : SpecificationRow :=
    { id := id, model_id := model_id,
      individual_guitar_id := individual_guitar_id, fields := s }
  (id, { db with specifications := db.specifications ++ [row],
                 next_id := id + 1 })

/-- `GuitarDataProcessor._insert_specifications`: one child row per
specification object, keyed to exactly one parent. -/
def insert_specifications (db : DB) (data : SpecsField) (forModel : Bool)
    (target_id : Nat) : SpecIds × DB :=
  let model_id := if forModel then some target_id else none
  let individual_guitar_id := if forModel then none else some target_id
  match data with
  | .one s =>
    let (id, db') := insert_single_specification db s model_id individual_guitar_id
    (.one id, db')
  | .many l =>
    let step := l.foldl
      (fun (acc : List Nat × DB) s =>
        let (id, db') :=
          insert_single_specification acc.2 s model_id individual_guitar_id
        (acc.1 ++ [id], db'))
      ([], db)
    (.many step.1, step.2)

/-! ## Batch Coordinator (`GuitarDataProcessor.process_submission`) -/

/-- One submission: a bundle of up to three entity payloads. -/
structure Submission where
  manufacturer : Option ManufacturerData := none
  model : Option ModelData := none
  individual_guitar : Option GuitarData := none
deriving Repr, DecidableEq

/-- The `ids_created` dictionary of a per-item result. -/
structure IdsCreated where
  manufacturer : Option Nat := none
  model : Option Nat := none
  model_specifications : Option SpecIds := none
  individual_guitar : Option Nat := none
  guitar_specifications : Option SpecIds := none
deriving Repr, DecidableEq

/-- Per-item result of `_process_single_submission`. -/
structure ItemResult where
  index : Nat
  success : Bool := false
  actions_taken : List String := []
  conflicts : List String := []
  ids_created : IdsCreated := {}
  manual_review_needed : Bool := false
deriving Repr, DecidableEq

/-- Truthiness of the `specifications` member of a model payload (a JSON
object is truthy, an array is truthy when non-empty). -/
def specsTruthy : Option SpecsField → Bool
  | none => false
  | some (.one _) => true
  | some (.many l) => !l.isEmpty

/-- Manufacturer block of `_process_single_submission`; `Except.error`
carries an early `return results`. -/
def manufacturerPhase (db : DB) (sub : Submission) (r : ItemResult) :
    Except (ItemResult × DB) (ItemResult × DB) :=
  match sub.manufacturer with
  | none => .ok (r, db)
  | some md =>
    let v := validate_manufacturer db md
    if !v.is_valid then
      .error ({ r with conflicts := r.conflicts ++ v.conflicts }, db)
    else if v.suggested_resolution = some .MANUAL_REVIEW then
      .error
        ({ r with
            manual_review_needed := true
            conflicts := r.conflicts ++
              ["Manufacturer conflict: " ++ String.intercalate ", " v.conflicts] },
         db)
    else
      let step : ItemResult × DB :=
        if v.action = "insert" then
          let (mfr_id, db') := insert_manufacturer db md
          ({ r with ids_created :=
              { r.ids_created with manufacturer := some mfr_id } }, db')
        else if v.action = "update" then
          match v.target_id with
          | some tid => (r, update_manufacturer db tid md)
          | none => (r, db)
        else (r, db)
      .ok ({ step.1 with actions_taken :=
              step.1.actions_taken ++ ["Manufacturer " ++ v.action] }, step.2)

/-- Model block of `_process_single_submission`; a `none` from the writer is
the caught `Processing error` path of the source. -/
def modelPhase (db : DB) (sub : Submission) (r : ItemResult) :
    Except (ItemResult × DB) (ItemResult × DB) :=
  match sub.model with
  | none => .ok (r, db)
  | some md =>
    let v := validate_model db md
    if !v.is_valid then
      .error ({ r with conflicts := r.conflicts ++ v.conflicts }, db)
    else if v.suggested_resolution = some .MANUAL_REVIEW then
      .error
        ({ r with
            manual_review_needed := true
            conflicts := r.conflicts ++
              ["Model conflict: " ++ String.intercalate ", " v.conflicts] },
         db)
    else
      if v.action = "insert" then
        match insert_model db md with
        | none =>
          .error ({ r with conflicts := r.conflicts ++
                    ["Processing error: manufacturer lookup failed"] }, db)
        | some (model_id, db') =>
          let step : ItemResult × DB :=
            if specsTruthy md.specifications then
              match md.specifications with
              | some specs =>
                let (spec_ids, db2) :=
                  insert_specifications db' specs true model_id
                ({ r with ids_created :=
                    { r.ids_created with
                        model := some model_id
                        model_specifications := some spec_ids } }, db2)
              | none =>
                ({ r with ids_created :=
                    { r.ids_created with model := some model_id } }, db')
            else
              ({ r with ids_created :=
                  { r.ids_created with model := some model_id } }, db')
          .ok ({ step.1 with actions_taken :=
                  step.1.actions_taken ++ ["Model " ++ v.action] }, step.2)
      else
        let step : ItemResult × DB :=
          if v.action = "update" then
            match v.target_id with
            | some tid => (r, update_model db tid md)
            | none => (r, db)
          else (r, db)
        .ok ({ step.1 with actions_taken :=
                step.1.actions_taken ++ ["Model " ++ v.action] }, step.2)

/-- Individual-guitar block of `_process_single_submission`. -/
def guitarPhase (db : DB) (sub : Submission) (r : ItemResult) :
    Except (ItemResult × DB) (ItemResult × DB) :=
  match sub.individual_guitar with
  | none => .ok (r, db)
  | some gd =>
    let v := validate_individual_guitar db gd
    if !v.is_valid then
      .error ({ r with conflicts := r.conflicts ++ v.conflicts }, db)
    else if v.suggested_resolution = some .MANUAL_REVIEW then
      .error
        ({ r with
            manual_review_needed := true
            conflicts := r.conflicts ++
              ["Guitar conflict: " ++ String.intercalate ", " v.conflicts] },
         db)
    else
      let step : ItemResult × DB :=
        if v.action = "insert" then
          let (guitar_id, db') := insert_individual_guitar db gd
          match gd.specifications with
          | some s =>
            let (spec_id, db2) :=
              insert_specifications db' (.one s) false guitar_id
            ({ r with ids_created :=
                { r.ids_created with
                    individual_guitar := some guitar_id
                    guitar_specifications := some spec_id } }, db2)
          | none =>
            ({ r with ids_created :=
                { r.ids_created with individual_guitar := some guitar_id } },
             db')
        else if v.action = "update" then
          match v.target_id with
          | some tid => (r, update_individual_guitar db tid gd)
          | none => (r, db)
        else (r, db)
      .ok ({ step.1 with actions_taken :=
              step.1.actions_taken ++ ["Guitar " ++ v.action] }, step.2)

/-- `GuitarDataProcessor._process_single_submission`: the three entity
blocks in dependency order, with early returns on failure or flagged
conflict, and `success` set only when every present block completed. -/
def process_single_submission (db : DB) (sub : Submission) (index : Nat) :
    ItemResult × DB :=
  let r0 : ItemResult := { index := index }
  match manufacturerPhase db sub r0 with
  | .error rd => rd
  | .ok (r1, db1) =>
    match modelPhase db1 sub r1 with
    | .error rd => rd
    | .ok (r2, db2) =>
      match guitarPhase db2 sub r2 with
      | .error rd => rd
      | .ok (r3, db3) => ({ r3 with success := true }, db3)

/-- The `actions_taken` tallies of the batch summary. -/
structure ActionCounts where
  manufacturers_inserted : Nat := 0
  manufacturers_updated : Nat := 0
  models_inserted : Nat := 0
  models_updated : Nat := 0
  guitars_inserted : Nat := 0
  guitars_updated : Nat := 0
deriving Repr, DecidableEq

/-- The `summary` member of a batch result. -/
structure Summary where
  successful : Nat := 0
  failed : Nat := 0
  manual_review_needed : Nat := 0
  actions_taken : ActionCounts := {}
deriving Repr, DecidableEq

/-- The batch-shaped result of `process_submission`. -/
structure BatchResult where
  success : Bool := true
  processed_count : Nat := 0
  total_count : Nat := 0
  results : List ItemResult := []
  summary : Summary := {}
  rolled_back : Option Bool := none
  rollback_reason : Option String := none
  partial_success : Option Bool := none
deriving Repr, DecidableEq

/-- Substring-based aggregation of one item's `actions_taken` into the batch
tallies. -/
def countActions (c : ActionCounts) (acts : List String) : ActionCounts :=
  acts.foldl
    (fun c a =>
      if strContains a "Manufacturer insert" then
        { c with manufacturers_inserted := c.manufacturers_inserted + 1 }
      else if strContains a "Manufacturer update" then
        { c with manufacturers_updated := c.manufacturers_updated + 1 }
      else if strContains a "Model insert" then
        { c with models_inserted := c.models_inserted + 1 }
      else if strContains a "Model update" then
        { c with models_updated := c.models_updated + 1 }
      else if strContains a "Guitar insert" then
        { c with guitars_inserted := c.guitars_inserted + 1 }
      else if strContains a "Guitar update" then
        { c with guitars_updated := c.guitars_updated + 1 }
      else c)
    c

/-- Accumulated state of the submission loop of `process_submission`. -/
structure BatchState where
  results : List ItemResult := []
  summary : Summary := {}
  success : Bool := true
  processed_count : Nat := 0
  db : DB
deriving Repr, DecidableEq

/-- One iteration of the submission loop: process, append the result, and
update the summary statistics. -/
def stepSubmission (st : BatchState) (ix_sub : Nat × Submission) :
    BatchState :=
  let (r, db') := process_single_submission st.db ix_sub.2 ix_sub.1
  let st1 : BatchState :=
    { st with db := db', results := st.results ++ [r],
              processed_count := st.processed_count + 1 }
  let st2 : BatchState :=
    if r.success then
      { st1 with summary :=
          { st1.summary with
              successful := st1.summary.successful + 1
              actions_taken :=
                countActions st1.summary.actions_taken r.actions_taken } }
    else
      { st1 with
        summary := { st1.summary with failed := st1.summary.failed + 1 },
        success := false }
  if r.manual_review_needed then
    { st2 with summary :=
        { st2.summary with manual_review_needed :=
            st2.summary.manual_review_needed + 1 } }
  else st2

/-- The submission loop: strictly sequential, threading the one transaction
scope. -/
def runBatch (db : DB) (subs : List Submission) : BatchState :=
  subs.enum.foldl stepSubmission { db := db }

/-- Input shape of `process_submission`: a single submission object or an
ordered list of them. -/
inductive SubmissionInput where
  | single (s : Submission)
  | batch (l : List Submission)
deriving Repr, DecidableEq

/-- Output shape of `process_submission`: single callers get the bare
per-item result back. -/
inductive ProcOutput where
  | single (r : ItemResult)
  | batch (b : BatchResult)
deriving Repr, DecidableEq

/-- `GuitarDataProcessor.process_submission`: run every submission, then
make the one commit/rollback decision for the whole unit of work.  The
returned `DB` is the state the store holds after the decision: the threaded
state on commit, the state at entry on rollback. -/
def process_submission (db : DB) (input : SubmissionInput) : ProcOutput × DB :=
  let submissions := match input with
    | .single s => [s]
    | .batch l => l
  let is_batch := match input with
    | .single _ => false
    | .batch _ => true
  let st := runBatch db submissions
  let base : BatchResult :=
    { success := st.success, processed_count := st.processed_count,
      total_count := submissions.length, results := st.results,
      summary := st.summary }
  let decided : BatchResult × DB :=
    if !st.success && is_batch then
      let failed := st.summary.failed
      let total := submissions.length
      if (failed : ℚ) / (total : ℚ) > 1/2 then
        ({ base with
            rolled_back := some true
            rollback_reason := some ("High failure rate: " ++ toString failed ++
              "/" ++ toString total ++ " submissions failed") }, db)
      else ({ base with partial_success := some true }, st.db)
    else (base, st.db)
  match is_batch, decided.1.results with
  | false, [r] => (.single r, decided.2)
  | _, _ => (.batch decided.1, decided.2)

/-! ## Shared helper lemmas -/

theorem sortDesc_ne_nil {α : Type} (key : α → ℚ) {l : List α} (h : l ≠ []) :
    sortDesc key l ≠ [] := by
  intro hc
  rcases List.exists_mem_of_ne_nil l h with ⟨z, hz⟩
  rw [← mem_sortDesc key l z, hc] at hz
  simp at hz

/-! ## Claim theorems -/

set_option maxRecDepth 200000

/-- Example store for C1: one unit catalogued under serial `"90824"`. -/
def exC1row : IndividualGuitarRow :=
  { id := 1, serial_number := some "90824" }

def exC1db : DB := { individual_guitars := [exC1row], next_id := 2 }

/-- Example submission for C1: the same physical unit submitted under the
dash form `"9-0824"` of the same serial. -/
def exC1g : GuitarData :=
  { manufacturer_name_fallback := some "Zemaitis",
    description := some "a guitar", serial_number := some "9-0824" }

/-- C1, counterexample: with a unit stored under serial `"90824"`, a guitar
submitted with serial `"9-0824"` does not return a confidence-1.0 match
resolving to update as the claim states; it resolves to insert with no
target, because the lookup compares raw serial strings. -/
theorem C1_counterexample :
    exC1row.serial_number = some "90824" ∧
    exC1g.serial_number = some "9-0824" ∧
    (validate_individual_guitar exC1db exC1g).action = "insert" ∧
    (validate_individual_guitar exC1db exC1g).target_id = none := by
  refine ⟨rfl, rfl, ?_, ?_⟩ <;> decide

/-- C1, amended: serial matching uses exact equality on the raw serial
string, with no normalization.  A present serial whose exact string is
already stored resolves to update with confidence 1.0 against the first
stored unit carrying it; when no stored serial is exactly equal, the serial
tier contributes nothing and matching falls through to the second tier. -/
theorem C1_serial_exact_equality (db : DB) (d : GuitarData)
    (g : IndividualGuitarRow)
    (hschema : guitarSchemaError d = none)
    (hserial : strTruthy d.serial_number = true)
    (hfound : db.individual_guitars.find?
      (fun g2 => g2.serial_number = d.serial_number) = some g) :
    validate_individual_guitar db d =
      { is_valid := true, action := "update", target_id := some g.id,
        confidence := 1, suggested_resolution := some .MERGE } ∧
    (∀ (db2 : DB) (d2 : GuitarData) (mid : Option Nat),
      strTruthy d2.serial_number = true →
      db2.individual_guitars.find?
        (fun g2 => g2.serial_number = d2.serial_number) = none →
      find_individual_guitar_matches db2 d2 mid = guitarTierTwo db2 d2 mid) :=
  by
  constructor
  · simp [validate_individual_guitar, find_individual_guitar_matches,
      hschema, hserial, hfound]
  · intro db2 d2 mid hser2 hnone
    simp [find_individual_guitar_matches, hser2, hnone]

/-- C1 witness: the amended behaviour at a concrete input — resubmitting the
exact stored string `"90824"` does update. -/
theorem C1_witness :
    (validate_individual_guitar exC1db
      { exC1g with serial_number := some "90824" }).action = "update" := by
  have h := C1_serial_exact_equality exC1db
    { exC1g with serial_number := some "90824" } exC1row
    (by decide) (by decide) (by decide)
  rw [h.1]

/-- Example store for C5: a unit known only by fallback text, no serial. -/
def exC5row : IndividualGuitarRow :=
  { id := 1, manufacturer_name_fallback := some "Gibson",
    model_name_fallback := some "Les Paul", year_estimate := some "1959" }

def exC5db : DB := { individual_guitars := [exC5row], next_id := 2 }

/-- Example submission for C5: fallback text only, no serial number, no
production date, agreeing with the stored unit on fallback manufacturer,
fallback model and year estimate. -/
def exC5g : GuitarData :=
  { manufacturer_name_fallback := some "Gibson",
    model_name_fallback := some "Les Paul", year_estimate := some "1959",
    description := some "sunburst" }

set_option maxHeartbeats 1000000 in
/-- C5: a match produced solely from fallback-text similarity accumulates
`0.3 + 0.4 + 0.3`, which is exactly `1.0` (in IEEE doubles as in `ℚ`), so
the `confidence == 1.0` test the source documents as `Exact serial number
match` also fires for it and the guitar resolves to update — the claim
(and the source's own comment) say only an exact serial match may update. -/
theorem C5_fallback_only_match_updates :
    exC5g.serial_number = none ∧
    exC5row.serial_number = none ∧
    (validate_individual_guitar exC5db exC5g) =
      { is_valid := true, action := "update", target_id := some 1,
        confidence := 1, suggested_resolution := some .MERGE } := by
  refine ⟨rfl, rfl, ?_⟩
  norm_num +decide [validate_individual_guitar, guitarSchemaError, exC5db,
    exC5g, exC5row, guitarSchemaError.guitarFieldError, optLenLe, optEnum,
    String.length, resolve_model_reference, find_individual_guitar_matches,
    strTruthy, guitarTierTwo, guitarCandidateRows, guitarConfidence,
    sqlLowerEq, pyLower, sortDesc, insertDesc, List.filterMap_cons,
    List.filter_cons]

/-- Example payloads for C9: each fails its structural schema check. -/
def exC9mfr : ManufacturerData := { founded_year := some 1500 }

def exC9model : ModelData :=
  { manufacturer_name := some "Gibson", name := some "SG" }

def exC9guitar : GuitarData := { nickname := some "Lucille" }

def exC9sub : Submission := { model := some exC9model }

/-- A populated store used to exhibit store-independence. -/
def exC9otherDB : DB :=
  { manufacturers := [{ id := 1, name := some "Gibson", status := some "active" }],
    models := [{ id := 2, manufacturer_id := 1, name := some "SG", year := some 1961 }],
    next_id := 3 }

/-- C9: a payload that fails schema validation yields an
`invalid_schema` failure carrying the violated constraint, the outcome is
computed without consulting the store (the result is the same against every
store value), and processing a submission whose payload is schema-invalid
writes nothing for it. -/
theorem C9_schema_violation_before_store (db db2 : DB)
    (dm : ManufacturerData) (dmo : ModelData) (dg : GuitarData)
    (sub : Submission) (i : Nat)
    (hm : manufacturerSchemaError dm ≠ none)
    (hmo : modelSchemaError dmo ≠ none)
    (hg : guitarSchemaError dg ≠ none)
    (hsub : sub.manufacturer = none ∧ sub.model = some dmo) :
    validate_manufacturer db dm = validate_manufacturer db2 dm ∧
    (validate_manufacturer db dm).is_valid = false ∧
    (validate_manufacturer db dm).action = "invalid_schema" ∧
    (validate_manufacturer db dm).conflicts ≠ [] ∧
    validate_model db dmo = validate_model db2 dmo ∧
    (validate_model db dmo).is_valid = false ∧
    (validate_model db dmo).action = "invalid_schema" ∧
    (validate_model db dmo).conflicts ≠ [] ∧
    validate_individual_guitar db dg = validate_individual_guitar db2 dg ∧
    (validate_individual_guitar db dg).is_valid = false ∧
    (validate_individual_guitar db dg).action = "invalid_schema" ∧
    (validate_individual_guitar db dg).conflicts ≠ [] ∧
    (process_single_submission db sub i).2 = db ∧
    (process_single_submission db sub i).1.success = false := by
  obtain ⟨em, hem⟩ : ∃ e, manufacturerSchemaError dm = some e := by
    cases h : manufacturerSchemaError dm with
    | none => exact absurd h hm
    | some e => exact ⟨e, rfl⟩
  obtain ⟨emo, hemo⟩ : ∃ e, modelSchemaError dmo = some e := by
    cases h : modelSchemaError dmo with
    | none => exact absurd h hmo
    | some e => exact ⟨e, rfl⟩
  obtain ⟨eg, heg⟩ : ∃ e, guitarSchemaError dg = some e := by
    cases h : guitarSchemaError dg with
    | none => exact absurd h hg
    | some e => exact ⟨e, rfl⟩
  obtain ⟨hsm, hsmo⟩ := hsub
  refine ⟨?_, ?_, ?_, ?_, ?_, ?_, ?_, ?_, ?_, ?_, ?_, ?_, ?_, ?_⟩ <;>
    simp [validate_manufacturer, validate_model, validate_individual_guitar,
      process_single_submission, manufacturerPhase, modelPhase, hem, hemo,
      heg, hsm, hsmo]

/-- C9 witness: concrete schema-invalid payloads — a manufacturer founded
out of range, a model with no year, a guitar satisfying no identity
combination — each rejected identically against the empty and a populated
store, with no write. -/
theorem C9_witness :
    (validate_model {} exC9model).action = "invalid_schema" ∧
    validate_model {} exC9model = validate_model exC9otherDB exC9model ∧
    (process_single_submission {} exC9sub 0).2 = {} := by
  have h := C9_schema_violation_before_store {} exC9otherDB exC9mfr exC9model
    exC9guitar exC9sub 0 (by decide) (by decide) (by decide) ⟨rfl, rfl⟩
  exact ⟨h.2.2.2.2.2.2.1, h.2.2.2.2.1, h.2.2.2.2.2.2.2.2.2.2.2.2.1⟩

/-- Example stored manufacturer for C3. -/
def exC3row : ManufacturerRow :=
  { id := 1, name := some "Gibson", country := some "USA" }

def exC3db : DB := { manufacturers := [exC3row], next_id := 2 }

/-- Example incoming update for C3: the (mandatory, non-null) `name` field
spelt differently from the stored row. -/
def exC3data : ManufacturerData :=
  { name := some "gibson", website := some "x" }

/-- C3, counterexample: updating the stored manufacturer named `"Gibson"`
with a payload whose present, non-null `name` is `"gibson"` leaves the
stored name unchanged — `name` is not among the fields the updater merges,
so not every present non-null field overwrites the stored value. -/
theorem C3_counterexample :
    exC3data.name = some "gibson" ∧
    ((update_manufacturer exC3db 1 exC3data).manufacturers.map
      fun m => m.name) = [some "Gibson"] ∧
    some "Gibson" ≠ (some "gibson" : Option String) := by
  refine ⟨rfl, ?_, by decide⟩
  decide

/-- C3, amended: each updater merges exactly its designated field list
(manufacturer: display name, country, founding year, website, status,
notes; model: production dates, estimated quantity, price, currency,
description; guitar: resolvable model reference plus the fallback and
unit fields), where a present non-null incoming value overwrites and an
absent or null one preserves; identity fields — manufacturer `name`, model
`name`/`year`, guitar `serial_number` and `significance_level` — are never
modified by an update, and no merged field ever goes from non-null to null.
The spec's country/website example holds through the updater. -/
theorem C3_merge_monotonic :
    (∀ (α : Type) (incoming stored : Option α),
      stored.isSome = true → (pyMerge incoming stored).isSome = true) ∧
    (∀ (m : ManufacturerRow) (d : ManufacturerData),
      mergeManufacturerRow m d =
        { m with
            display_name := pyMerge d.display_name m.display_name
            country := pyMerge d.country m.country
            founded_year := pyMerge d.founded_year m.founded_year
            website := pyMerge d.website m.website
            status := pyMerge d.status m.status
            notes := pyMerge d.notes m.notes } ∧
      (mergeManufacturerRow m d).name = m.name ∧
      (mergeManufacturerRow m d).id = m.id) ∧
    (∀ (m : ModelRow) (d : ModelData),
      mergeModelRow m d =
        { m with
            production_start_date :=
              pyMerge d.production_start_date m.production_start_date
            production_end_date :=
              pyMerge d.production_end_date m.production_end_date
            estimated_production_quantity :=
              pyMerge d.estimated_production_quantity
                m.estimated_production_quantity
            msrp_original := pyMerge d.msrp_original m.msrp_original
            currency := pyMerge d.currency m.currency
            description := pyMerge d.description m.description } ∧
      (mergeModelRow m d).name = m.name ∧
      (mergeModelRow m d).year = m.year ∧
      (mergeModelRow m d).manufacturer_id = m.manufacturer_id) ∧
    (∀ (db : DB) (g : IndividualGuitarRow) (d : GuitarData),
      (mergeGuitarRow db g d).serial_number = g.serial_number ∧
      (mergeGuitarRow db g d).significance_level = g.significance_level ∧
      (mergeGuitarRow db g d).nickname = pyMerge d.nickname g.nickname ∧
      (mergeGuitarRow db g d).description = pyMerge d.description g.description ∧
      (resolve_model_reference db d = none →
        (mergeGuitarRow db g d).model_id = g.model_id)) ∧
    (update_manufacturer exC3db 1 { country := none, website := some "x" }
      ).manufacturers = [{ exC3row with website := some "x" }] := by
  refine ⟨?_, ?_, ?_, ?_, ?_⟩
  · intro α incoming stored hs
    cases incoming with
    | none => simpa [pyMerge] using hs
    | some v => simp [pyMerge]
  · intro m d
    exact ⟨rfl, rfl, rfl⟩
  · intro m d
    exact ⟨rfl, rfl, rfl, rfl⟩
  · intro db g d
    refine ⟨rfl, rfl, rfl, rfl, ?_⟩
    intro hres
    simp [mergeGuitarRow, hres]
  · decide

/-- C3 witness: the generic no-null-overwrite fact and the spec's concrete
example, applied at concrete values. -/
theorem C3_witness :
    (pyMerge (none : Option String) (some "USA")).isSome = true ∧
    (update_manufacturer exC3db 1 { country := none, website := some "x" }
      ).manufacturers = [{ exC3row with website := some "x" }] :=
  ⟨C3_merge_monotonic.1 String none (some "USA") rfl,
   C3_merge_monotonic.2.2.2.2⟩

/-- C6, confirmed: the year acts as a hard filter in model matching — a
candidate whose present year differs from a present incoming year never
appears in the match list regardless of name similarity, and a submission
all of whose same-manufacturer candidates are excluded this way resolves to
insert. -/
theorem C6_year_hard_filter (db : DB) (d : ModelData) :
    (∀ (mid : Nat) (m : ModelRow), m ∈ db.models →
      ∀ y y2 : Int, d.year = some y → m.year = some y2 →
      y ≠ 0 → y2 ≠ 0 → y ≠ y2 →
      ∀ t ∈ find_model_matches db d mid, t.2.2 ≠ m) ∧
    (∀ (manufacturer : ManufacturerRow),
      modelSchemaError d = none →
      db.manufacturers.find? (fun m => sqlLowerEq m.name d.manufacturer_name)
        = some manufacturer →
      (∀ m ∈ db.models, m.manufacturer_id = manufacturer.id →
        ∃ y y2 : Int, d.year = some y ∧ m.year = some y2 ∧
          y ≠ 0 ∧ y2 ≠ 0 ∧ y ≠ y2) →
      validate_model db d =
        { is_valid := true, action := "insert", confidence := 1 }) := by
  have hskip : ∀ (mid : Nat) (m : ModelRow),
      (∃ y y2 : Int, d.year = some y ∧ m.year = some y2 ∧
        y ≠ 0 ∧ y2 ≠ 0 ∧ y ≠ y2) →
      (if intTruthy d.year ∧ intTruthy m.year ∧ d.year ≠ m.year then
        (none : Option ModelMatch)
      else
        if modelConfidence d m ≥ 8/10 then some (m.id, modelConfidence d m, m)
        else none) = none := by
    intro mid m ⟨y, y2, hy, hy2, hyne, hy2ne, hne⟩
    rw [if_pos]
    exact ⟨by simp [intTruthy, hy, hyne], by simp [intTruthy, hy2, hy2ne],
      by simp [hy, hy2, hne]⟩
  constructor
  · intro mid m hm y y2 hy hy2 hyne hy2ne hne t ht
    unfold find_model_matches at ht
    rw [mem_sortDesc] at ht
    rcases List.mem_filterMap.mp ht with ⟨m2, _hm2, hf⟩
    intro hteq
    have ht22 : t.2.2 = m2 := by
      by_cases hc : intTruthy d.year ∧ intTruthy m2.year ∧ d.year ≠ m2.year
      · rw [if_pos hc] at hf
        exact Option.noConfusion hf
      · rw [if_neg hc] at hf
        by_cases hc2 : modelConfidence d m2 ≥ 8/10
        · rw [if_pos hc2] at hf
          injection hf with hf2
          rw [← hf2]
        · rw [if_neg hc2] at hf
          exact Option.noConfusion hf
    have hmm : m2 = m := ht22.symm.trans hteq
    rw [hmm] at hf
    rw [hskip mid m ⟨y, y2, hy, hy2, hyne, hy2ne, hne⟩] at hf
    exact Option.noConfusion hf
  · intro manufacturer hschema hfind hall
    have hempty : find_model_matches db d manufacturer.id = [] := by
      unfold find_model_matches
      have h0 : (db.models.filter
          fun m => m.manufacturer_id = manufacturer.id).filterMap
            (fun m =>
              if intTruthy d.year ∧ intTruthy m.year ∧ d.year ≠ m.year then
                (none : Option ModelMatch)
              else
                if modelConfidence d m ≥ 8/10 then
                  some (m.id, modelConfidence d m, m)
                else none) = [] := by
        rw [List.filterMap_eq_nil_iff]
        intro m hm
        rw [List.mem_filter] at hm
        exact hskip manufacturer.id m
          (hall m hm.1 (by simpa using hm.2))
      simp only [find_model_matches]
      rw [h0]
      rfl
    simp only [validate_model, hschema, hfind, hempty]

/-- Example catalog for the C6 witness: Gibson with a 1963 Firebird III. -/
def exC6mfr : ManufacturerRow :=
  { id := 1, name := some "Gibson", status := some "active" }

def exC6row : ModelRow :=
  { id := 2, manufacturer_id := 1, name := some "Firebird III", year := some 1963 }

def exC6db : DB :=
  { manufacturers := [exC6mfr], models := [exC6row], next_id := 3 }

def exC6model : ModelData :=
  { manufacturer_name := some "Gibson", name := some "Firebird III",
    year := some 1976 }

/-- C6 witness: a 1976 "Firebird III" against an existing 1963
"Firebird III" is excluded outright and the submission inserts. -/
theorem C6_witness :
    (validate_model exC6db exC6model).action = "insert" ∧
    (∀ t ∈ find_model_matches exC6db exC6model 1, t.2.2 ≠ exC6row) := by
  have h := C6_year_hard_filter exC6db exC6model
  constructor
  · rw [h.2 exC6mfr (by decide) (by decide) ?_]
    · intro m hm _hmid
      refine ⟨1976, 1963, rfl, ?_, by decide, by decide, by decide⟩
      have hrow : m = exC6row := by
        simpa [exC6db] using hm
      rw [hrow]
      rfl
  · intro t ht
    exact h.1 1 exC6row (by simp [exC6db]) 1976 1963 rfl rfl
      (by decide) (by decide) (by decide) t ht

/-- The manufacturer block neither flips `success` nor, on its continue
path, touches `manual_review_needed`. -/
theorem manufacturerPhase_preserve (db : DB) (sub : Submission)
    (r : ItemResult) :
    (∀ r' db', manufacturerPhase db sub r = .ok (r', db') →
      r'.manual_review_needed = r.manual_review_needed ∧
      r'.success = r.success) ∧
    (∀ r' db', manufacturerPhase db sub r = .error (r', db') →
      r'.success = r.success) := by
  constructor <;>
  · intro r' db' h
    simp only [manufacturerPhase] at h
    repeat' split at h
    all_goals simp at h
    all_goals obtain ⟨h1, h2⟩ := h
    all_goals subst h1
    all_goals simp

/-- The model block neither flips `success` nor, on its continue path,
touches `manual_review_needed`. -/
theorem modelPhase_preserve (db : DB) (sub : Submission) (r : ItemResult) :
    (∀ r' db', modelPhase db sub r = .ok (r', db') →
      r'.manual_review_needed = r.manual_review_needed ∧
      r'.success = r.success) ∧
    (∀ r' db', modelPhase db sub r = .error (r', db') →
      r'.success = r.success) := by
  constructor <;>
  · intro r' db' h
    simp only [modelPhase] at h
    repeat' split at h
    all_goals simp at h
    all_goals obtain ⟨h1, h2⟩ := h
    all_goals subst h1
    all_goals simp

/-- The guitar block neither flips `success` nor, on its continue path,
touches `manual_review_needed`. -/
theorem guitarPhase_preserve (db : DB) (sub : Submission) (r : ItemResult) :
    (∀ r' db', guitarPhase db sub r = .ok (r', db') →
      r'.manual_review_needed = r.manual_review_needed ∧
      r'.success = r.success) ∧
    (∀ r' db', guitarPhase db sub r = .error (r', db') →
      r'.success = r.success) := by
  constructor <;>
  · intro r' db' h
    simp only [guitarPhase] at h
    repeat' split at h
    all_goals simp at h
    all_goals obtain ⟨h1, h2⟩ := h
    all_goals subst h1
    all_goals simp

/-- Invariant of the submission loop: the `failed` tally counts exactly the
non-successful per-item results, the `manual_review_needed` tally counts
exactly the flagged ones, and the batch `success` flag holds exactly when
nothing failed. -/
theorem runBatch_invariant (db : DB) (subs : List Submission) :
    (runBatch db subs).summary.failed =
      ((runBatch db subs).results.filter fun r => !r.success).length ∧
    (runBatch db subs).summary.manual_review_needed =
      ((runBatch db subs).results.filter fun r => r.manual_review_needed).length ∧
    ((runBatch db subs).success = true ↔
      (runBatch db subs).summary.failed = 0) := by
  unfold runBatch
  refine foldl_preserve (P := fun st : BatchState =>
    st.summary.failed = (st.results.filter fun r => !r.success).length ∧
    st.summary.manual_review_needed =
      (st.results.filter fun r => r.manual_review_needed).length ∧
    (st.success = true ↔ st.summary.failed = 0)) _ ?_ _ _ (by simp)
  intro st ixs hP
  obtain ⟨hf, hm, hs⟩ := hP
  unfold stepSubmission
  by_cases hsucc : (process_single_submission st.db ixs.2 ixs.1).1.success
  <;> by_cases hman :
      (process_single_submission st.db ixs.2 ixs.1).1.manual_review_needed
  <;> simp [hsucc, hman, List.filter_append, hf, hm, hs]

/-- C10: whenever an entity resolution flags manual review, the per-item
result carries `manual_review_needed = true` with `success = false`; the
batch summary counts such a submission both in `failed` and in
`manual_review_needed`, and the rollback decision is driven by that same
`failed` tally, so manual-review outcomes feed the failure rate exactly
like outright failures. -/
theorem C10_manual_review_counts_as_failure :
    (∀ (db : DB) (sub : Submission) (i : Nat),
      (process_single_submission db sub i).1.manual_review_needed = true →
      (process_single_submission db sub i).1.success = false) ∧
    (∀ (db : DB) (subs : List Submission),
      (runBatch db subs).summary.failed =
        ((runBatch db subs).results.filter fun r => !r.success).length ∧
      (runBatch db subs).summary.manual_review_needed =
        ((runBatch db subs).results.filter fun r => r.manual_review_needed).length) ∧
    (∀ (db : DB) (subs : List Submission) (b : BatchResult) (db2 : DB),
      process_submission db (.batch subs) = (.batch b, db2) →
      (b.rolled_back = some true ↔
        ((runBatch db subs).summary.failed ≠ 0 ∧
          ((runBatch db subs).summary.failed : ℚ) / (subs.length : ℚ) > 1/2))) := by
  refine ⟨?_, ?_, ?_⟩
  · intro db sub i hman
    simp only [process_single_submission] at hman ⊢
    cases h1 : manufacturerPhase db sub { index := i } with
    | error rd =>
      obtain ⟨r1, db1⟩ := rd
      dsimp only at hman ⊢
      exact (manufacturerPhase_preserve db sub { index := i }).2 r1 db1
        (by rw [h1])
    | ok p1 =>
      obtain ⟨r1, db1⟩ := p1
      dsimp only at hman ⊢
      have hm1 := (manufacturerPhase_preserve db sub { index := i }).1 r1 db1
        (by rw [h1])
      cases h2 : modelPhase db1 sub r1 with
      | error rd =>
        obtain ⟨r2, db2⟩ := rd
        dsimp only at hman ⊢
        rw [(modelPhase_preserve db1 sub r1).2 r2 db2 (by rw [h2])]
        exact hm1.2
      | ok p2 =>
        obtain ⟨r2, db2⟩ := p2
        dsimp only at hman ⊢
        have hm2 := (modelPhase_preserve db1 sub r1).1 r2 db2 (by rw [h2])
        cases h3 : guitarPhase db2 sub r2 with
        | error rd =>
          obtain ⟨r3, db3⟩ := rd
          dsimp only at hman ⊢
          rw [(guitarPhase_preserve db2 sub r2).2 r3 db3 (by rw [h3])]
          rw [hm2.2]
          exact hm1.2
        | ok p3 =>
          obtain ⟨r3, db3⟩ := p3
          rw [h1] at hman
          dsimp only at hman
          rw [h2] at hman
          dsimp only at hman
          rw [h3] at hman
          dsimp only at hman
          have hm3 := (guitarPhase_preserve db2 sub r2).1 r3 db3 (by rw [h3])
          exfalso
          have hfalse : r3.manual_review_needed = false := by
            rw [hm3.1, hm2.1, hm1.1]
          rw [hfalse] at hman
          exact Bool.noConfusion hman
  · intro db subs
    exact ⟨(runBatch_invariant db subs).1, (runBatch_invariant db subs).2.1⟩
  · intro db subs b db2 h
    have hinv := (runBatch_invariant db subs).2.2
    unfold process_submission at h
    simp only at h
    by_cases hsucc : (runBatch db subs).success
    · rw [if_neg (by simp [hsucc])] at h
      injection h with hb hdb
      injection hb with hb
      rw [← hb]
      simp only
      constructor
      · intro hc
        exact absurd hc (by simp)
      · intro ⟨hf, _⟩
        exact absurd (hinv.mp hsucc) hf
    · by_cases hrate : ((runBatch db subs).summary.failed : ℚ) /
          ((subs.length : Nat) : ℚ) > 1/2
      · rw [if_pos (by simp [hsucc]), if_pos hrate] at h
        injection h with hb hdb
        injection hb with hb
        rw [← hb]
        simp only
        refine ⟨fun _ => ⟨?_, hrate⟩, fun _ => by trivial⟩
        intro hzero
        exact hsucc (hinv.mpr hzero)
      · rw [if_pos (by simp [hsucc]), if_neg hrate] at h
        injection h with hb hdb
        injection hb with hb
        rw [← hb]
        simp only
        constructor
        · intro hc
          exact absurd hc (by simp)
        · intro ⟨_, hr⟩
          exact absurd hr hrate

/-- Example catalog and submission for the C10 witness: `"Gibsons"` against
an existing `"Gibson"` scores `12/13 ≈ 0.923`, inside the manual-review
band. -/
def exC10db : DB :=
  { manufacturers := [{ id := 1, name := some "Gibson", status := some "active" }],
    next_id := 2 }

def exC10sub : Submission :=
  { manufacturer := some { name := some "Gibsons" } }

theorem exC10_similarity : calculate_similarity "Gibsons" "Gibson" = 12/13 := by
  unfold calculate_similarity simRatio
  norm_num [show normalize_string "Gibsons" = "gibsons" from by decide,
    show normalize_string "Gibson" = "gibson" from by decide,
    show matchTotal "gibsons".data "gibson".data = 6 from by decide,
    show ("gibsons".data.length = 7) from by decide,
    show ("gibson".data.length = 6) from by decide]

set_option maxHeartbeats 1000000 in
/-- Concrete evaluation of the manual-review scenario. -/
theorem exC10_eval :
    process_single_submission exC10db exC10sub 0 =
      ({ index := 0, success := false, actions_taken := [],
         conflicts :=
           ["Manufacturer conflict: Similar manufacturer found: Gibson"],
         ids_created := {}, manual_review_needed := true }, exC10db) := by
  norm_num +decide [process_single_submission, manufacturerPhase,
    validate_manufacturer, manufacturerSchemaError, optLenLe, optIntBetween,
    optEnum, find_manufacturer_matches, manufacturerConfidence, strTruthy,
    intTruthy, exC10db, exC10sub, String.length, exC10_similarity,
    sortDesc, insertDesc, List.filterMap_cons, modelPhase, guitarPhase,
    String.intercalate]

/-- C10 witness: the flagged submission has `manual_review_needed` with
`success = false` (by the claim theorem), and a batch of just this
submission counts it both as failed and as needing manual review. -/
theorem C10_witness :
    (process_single_submission exC10db exC10sub 0).1.manual_review_needed
      = true ∧
    (process_single_submission exC10db exC10sub 0).1.success = false ∧
    (runBatch exC10db [exC10sub]).summary.failed = 1 ∧
    (runBatch exC10db [exC10sub]).summary.manual_review_needed = 1 := by
  have hman : (process_single_submission exC10db exC10sub 0
      ).1.manual_review_needed = true := by
    rw [exC10_eval]
  refine ⟨hman, C10_manual_review_counts_as_failure.1 exC10db exC10sub 0 hman,
    ?_, ?_⟩ <;>
    simp [runBatch, stepSubmission, exC10_eval, List.enum]

/-- Extract the batch-shaped payload of a processing output. -/
def asBatch : ProcOutput → BatchResult
  | .batch b => b
  | .single _ => {}

/-- C2/C8 example submissions: one clean manufacturer-only submission, and
one whose manufacturer inserts but whose model names an unknown
manufacturer and fails with a missing dependency. -/
def exC2subA : Submission :=
  { manufacturer := some { name := some "Fender" } }

def exC2model : ModelData :=
  { manufacturer_name := some "Ghost", name := some "X", year := some 1980 }

def exC2subB : Submission :=
  { manufacturer := some { name := some "Benedetto" }, model := some exC2model }

def exC2fenderRow : ManufacturerRow :=
  { id := 1, name := some "Fender", status := some "active", created_by := some get_created_by_info }

def exC2benedettoRow : ManufacturerRow :=
  { id := 2, name := some "Benedetto", status := some "active", created_by := some get_created_by_info }

def exC2dbAfterA : DB := { manufacturers := [exC2fenderRow], next_id := 2 }

def exC2dbAfterB : DB :=
  { manufacturers := [exC2fenderRow, exC2benedettoRow], next_id := 3 }

theorem exC2_similarity : calculate_similarity "Benedetto" "Fender" = 8/15 := by
  unfold calculate_similarity simRatio
  norm_num [show normalize_string "Benedetto" = "benedetto" from by decide,
    show normalize_string "Fender" = "fender" from by decide,
    show matchTotal "benedetto".data "fender".data = 4 from by decide,
    show ("benedetto".data.length = 9) from by decide,
    show ("fender".data.length = 6) from by decide]

set_option maxHeartbeats 2000000 in
/-- C2, counterexample: a two-item batch whose second item inserts its
manufacturer and then fails on a missing model dependency has a 50% failure
rate, so the transaction commits with `partial_success = true`; contrary to
the claim, the failed item does contribute a surviving row — the
manufacturer `"Benedetto"` it inserted before failing persists. -/
theorem C2_counterexample :
    (asBatch (process_submission {} (.batch [exC2subA, exC2subB])).1
      ).partial_success = some true ∧
    (asBatch (process_submission {} (.batch [exC2subA, exC2subB])).1
      ).rolled_back = none ∧
    ((asBatch (process_submission {} (.batch [exC2subA, exC2subB])).1
      ).results.map fun r => r.success) = [true, false] ∧
    (((process_submission {} (.batch [exC2subA, exC2subB])).2
      ).manufacturers.map fun m => m.name) =
      [some "Fender", some "Benedetto"] := by
  have hev : process_single_submission exC2dbAfterA exC2subB 1 =
      ({ index := 1, success := false,
         actions_taken := ["Manufacturer insert"],
         conflicts := ["Manufacturer 'Ghost' not found"],
         ids_created := { manufacturer := some 2 },
         manual_review_needed := false }, exC2dbAfterB) := by
    norm_num +decide [process_single_submission, manufacturerPhase,
      modelPhase, guitarPhase, validate_manufacturer, validate_model,
      manufacturerSchemaError, modelSchemaError, optLenLe, optIntBetween,
      optEnum, optRatNonneg, find_manufacturer_matches, find_model_matches,
      manufacturerConfidence, modelConfidence, strTruthy, intTruthy,
      exC2subB, exC2model, String.length, exC2_similarity, sqlLowerEq,
      pyLower, sortDesc, insertDesc, List.filterMap_cons, List.filter_cons,
      insert_manufacturer, insert_model, exC2dbAfterA, exC2dbAfterB,
      exC2fenderRow, exC2benedettoRow]
  have hevA : process_single_submission {} exC2subA 0 =
      ({ index := 0, success := true,
         actions_taken := ["Manufacturer insert"],
         ids_created := { manufacturer := some 1 } }, exC2dbAfterA) := by
    norm_num +decide [process_single_submission, manufacturerPhase,
      modelPhase, guitarPhase, validate_manufacturer, manufacturerSchemaError,
      optLenLe, optIntBetween, optEnum, find_manufacturer_matches,
      manufacturerConfidence, strTruthy, intTruthy, exC2subA, String.length,
      sortDesc, insertDesc, insert_manufacturer, exC2dbAfterA, exC2fenderRow]
  refine ⟨?_, ?_, ?_, ?_⟩ <;>
    norm_num [process_submission, runBatch, stepSubmission, List.enum,
      hevA, hev, asBatch, countActions, strContains, containsL, headMatch,
      exC2dbAfterB, exC2fenderRow, exC2benedettoRow]

/-- C2, amended: after all items of a batch are processed, exactly one
decision is made — a failure rate above 50% rolls the whole transaction
back to the state at batch start with `rolled_back = true` and a recorded
reason; a non-zero failure rate of at most 50% commits the threaded state
with `partial_success = true` (so writes a failed item performed before its
failure point persist alongside the successful items' writes); no failures
commits with neither flag. -/
theorem C2_batch_commit_rollback (db : DB) (subs : List Submission)
    (b : BatchResult) (db2 : DB)
    (h : process_submission db (.batch subs) = (.batch b, db2)) :
    b.summary = (runBatch db subs).summary ∧
    (b.summary.failed ≠ 0 ∧
        ((b.summary.failed : ℚ) / (subs.length : ℚ) > 1/2) →
      db2 = db ∧ b.rolled_back = some true ∧ b.rollback_reason.isSome = true ∧
        b.partial_success = none) ∧
    (b.summary.failed ≠ 0 ∧
        ¬ ((b.summary.failed : ℚ) / (subs.length : ℚ) > 1/2) →
      db2 = (runBatch db subs).db ∧ b.partial_success = some true ∧
        b.rolled_back = none) ∧
    (b.summary.failed = 0 →
      db2 = (runBatch db subs).db ∧ b.rolled_back = none ∧
        b.partial_success = none) := by
  have hinv := (runBatch_invariant db subs).2.2
  unfold process_submission at h
  simp only at h
  by_cases hsucc : (runBatch db subs).success
  · rw [if_neg (by simp [hsucc])] at h
    injection h with hb hdb
    injection hb with hb
    subst hb
    subst hdb
    have hzero := hinv.mp hsucc
    exact ⟨rfl, fun hc => absurd hzero hc.1, fun hc => absurd hzero hc.1,
      fun _ => ⟨rfl, rfl, rfl⟩⟩
  · have hnz : (runBatch db subs).summary.failed ≠ 0 := by
      intro hc
      exact hsucc (hinv.mpr hc)
    by_cases hrate : ((runBatch db subs).summary.failed : ℚ) /
        ((subs.length : Nat) : ℚ) > 1/2
    · rw [if_pos (by simp [hsucc]), if_pos hrate] at h
      injection h with hb hdb
      injection hb with hb
      subst hb
      subst hdb
      exact ⟨rfl, fun _ => ⟨rfl, rfl, rfl, rfl⟩,
        fun hc => absurd hrate hc.2, fun hc => absurd hc hnz⟩
    · rw [if_pos (by simp [hsucc]), if_neg hrate] at h
      injection h with hb hdb
      injection hb with hb
      subst hb
      subst hdb
      exact ⟨rfl, fun hc => absurd hc.2 (by simpa using hrate),
        fun _ => ⟨rfl, rfl, rfl⟩, fun hc => absurd hc hnz⟩

def exC2rollDb : DB :=
  { manufacturers := [{ id := 1, name := some "Benedetto", status := some "active", created_by := some get_created_by_info }],
    next_id := 2 }

/-- C2 witness: a single-item batch that fails outright (failure rate 1)
rolls back to the store state at entry, by the amended theorem. -/
theorem C2_witness :
    (process_submission {} (.batch [exC2subB])).2 = ({} : DB) ∧
    (asBatch (process_submission {} (.batch [exC2subB])).1).rolled_back =
      some true := by
  obtain ⟨nb, ndb, hnb⟩ : ∃ nb ndb,
      process_submission {} (.batch [exC2subB]) = (.batch nb, ndb) := by
    unfold process_submission
    simp only
    exact ⟨_, _, rfl⟩
  have h := C2_batch_commit_rollback {} [exC2subB] nb ndb hnb
  have hfailed : nb.summary.failed = 1 := by
    rw [h.1]
    have : process_single_submission {} exC2subB 0 =
        ({ index := 0, success := false,
           actions_taken := ["Manufacturer insert"],
           conflicts := ["Manufacturer 'Ghost' not found"],
           ids_created := { manufacturer := some 1 },
           manual_review_needed := false }, exC2rollDb) := by
      norm_num +decide [process_single_submission, manufacturerPhase,
        modelPhase, guitarPhase, validate_manufacturer, validate_model,
        manufacturerSchemaError, modelSchemaError, optLenLe, optIntBetween,
        optEnum, optRatNonneg, find_manufacturer_matches, find_model_matches,
        manufacturerConfidence, modelConfidence, strTruthy, intTruthy,
        exC2subB, exC2model, String.length, sqlLowerEq, pyLower, sortDesc,
        insertDesc, insert_manufacturer, insert_model, exC2rollDb]
    simp [runBatch, stepSubmission, List.enum, this]
  have hc := h.2.1 ⟨by rw [hfailed]; exact one_ne_zero, by
    rw [hfailed]
    norm_num⟩
  rw [hnb]
  exact ⟨hc.1, by simp [asBatch, hc.2.1]⟩

/-- Extract the single-shaped payload of a processing output. -/
def asSingle : ProcOutput → ItemResult
  | .single r => r
  | .batch _ => { index := 0 }

/-- C8, counterexample: a single submission whose manufacturer step inserts
`"Benedetto"` and whose model step then fails with a missing dependency is
reported failed, yet the committed store still contains the row the failed
submission wrote — contrary to the claim that no partial writes survive. -/
theorem C8_counterexample :
    (asSingle (process_submission {} (.single exC2subB)).1).success = false ∧
    ((asSingle (process_submission {} (.single exC2subB)).1).conflicts =
      ["Manufacturer 'Ghost' not found"]) ∧
    ((process_submission {} (.single exC2subB)).2.manufacturers.map
      fun m => m.name) = [some "Benedetto"] := by
  refine ⟨?_, ?_, ?_⟩ <;> decide

/-- C8, amended: when the model payload of a submission fails validation
(for instance with a missing manufacturer dependency), the submission stops
there and is reported failed with the failure recorded in its conflicts —
but the writes its earlier manufacturer step performed remain in the
transaction state, and a single-submission call commits them, so they do
survive. -/
theorem C8_missing_dependency_partial_writes (db : DB) (sub : Submission)
    (md : ModelData) (i : Nat) (r1 : ItemResult) (db1 : DB)
    (hmod : sub.model = some md)
    (hphase : manufacturerPhase db sub { index := i } = .ok (r1, db1))
    (hinvalid : (validate_model db1 md).is_valid = false) :
    process_single_submission db sub i =
      ({ r1 with conflicts :=
          r1.conflicts ++ (validate_model db1 md).conflicts }, db1) ∧
    (process_single_submission db sub i).1.success = false ∧
    (∀ r1' db1', manufacturerPhase db sub { index := 0 } = .ok (r1', db1') →
      (validate_model db1' md).is_valid = false →
      (process_submission db (.single sub)).2 = db1') := by
  have main : ∀ (j : Nat) (rj : ItemResult) (dbj : DB),
      manufacturerPhase db sub { index := j } = .ok (rj, dbj) →
      (validate_model dbj md).is_valid = false →
      process_single_submission db sub j =
        ({ rj with conflicts :=
            rj.conflicts ++ (validate_model dbj md).conflicts }, dbj) := by
    intro j rj dbj hph hinv
    simp only [process_single_submission, hph]
    have hmodel : modelPhase dbj sub rj =
        .error ({ rj with conflicts :=
          rj.conflicts ++ (validate_model dbj md).conflicts }, dbj) := by
      simp only [modelPhase, hmod]
      rw [if_pos (by rw [hinv]; rfl)]
    rw [hmodel]
  have hsucc1 : r1.success = false := by
    have := (manufacturerPhase_preserve db sub { index := i }).1 r1 db1 hphase
    rw [this.2]
  refine ⟨main i r1 db1 hphase hinvalid, ?_, ?_⟩
  · rw [main i r1 db1 hphase hinvalid]
    exact hsucc1
  · intro r1' db1' hph0 hinv0
    have hpres := (manufacturerPhase_preserve db sub { index := 0 }).1 r1' db1'
      hph0
    have hr1s : r1'.success = false := by rw [hpres.2]
    have hr1m : r1'.manual_review_needed = false := by rw [hpres.1]
    unfold process_submission
    simp only [runBatch, show List.enum [sub] = [(0, sub)] from rfl]
    have hstep : stepSubmission { db := db } (0, sub) =
        { results := [({ r1' with conflicts :=
            r1'.conflicts ++ (validate_model db1' md).conflicts })],
          summary := { failed := 1 }, success := false,
          processed_count := 1, db := db1' } := by
      simp only [stepSubmission, main 0 r1' db1' hph0 hinv0]
      simp [hr1s, hr1m]
    simp only [List.foldl_cons, List.foldl_nil, hstep]
    simp

def exC8r1 : ItemResult :=
  { index := 0, success := false, actions_taken := ["Manufacturer insert"],
    ids_created := { manufacturer := some 1 } }

/-- C8 witness: the amended theorem at the concrete failing submission —
the committed store is exactly the state after the manufacturer insert. -/
theorem C8_witness :
    (process_submission {} (.single exC2subB)).2 = exC2rollDb := by
  have h := C8_missing_dependency_partial_writes {} exC2subB exC2model 0
    exC8r1 exC2rollDb rfl (by rfl) (by rfl)
  exact h.2.2 exC8r1 exC2rollDb (by rfl) (by rfl)

/-- The manufacturer candidate score as the claim words it: name
similarity, `+0.1` only when an incoming country is present and equals the
candidate's, `+0.1` only when an incoming founding year is present and
equals the candidate's. -/
def spec_manufacturer_score (d : ManufacturerData) (m : ManufacturerRow) : ℚ :=
  calculate_similarity (d.name.getD "") (m.name.getD "") +
  (if strTruthy d.country ∧ d.country = m.country then 1/10 else 0) +
  (if intTruthy d.founded_year ∧ d.founded_year = m.founded_year then 1/10
   else 0)

/-- Example for C7: a stored manufacturer with no recorded country, and an
incoming payload naming the same manufacturer with a country. -/
def exC7row : ManufacturerRow :=
  { id := 1, name := some "Gibson", status := some "active" }

def exC7db : DB := { manufacturers := [exC7row], next_id := 2 }

def exC7d : ManufacturerData :=
  { name := some "Gibson", country := some "USA" }

/-- C7, counterexample: with an incoming country present and the candidate
country NULL, the code still grants the `+0.1` country bonus, so the
candidate scores `1.1` where the claim's formula gives `1.0`. -/
theorem C7_counterexample :
    manufacturerConfidence exC7d exC7row = 11/10 ∧
    spec_manufacturer_score exC7d exC7row = 1 ∧
    ((find_manufacturer_matches exC7db exC7d).map fun t => t.2.1) = [11/10] ∧
    (11/10 : ℚ) ≠ spec_manufacturer_score exC7d exC7row := by
  have hsim : calculate_similarity "Gibson" "Gibson" = 1 :=
    calculate_similarity_of_normalize_eq rfl
  refine ⟨?_, ?_, ?_, ?_⟩ <;>
    norm_num +decide [manufacturerConfidence, spec_manufacturer_score,
      find_manufacturer_matches, exC7d, exC7row, exC7db, strTruthy, intTruthy,
      hsim, sortDesc, insertDesc, List.filterMap_cons, List.filter_cons]

/-- C7, amended: the candidate set is exactly the non-defunct
manufacturers; each candidate scores name similarity plus a `0.1` country
bonus granted when an incoming country is present and the candidate's
country is *absent or equal* (not only equal, as the claim stated), plus
the analogous founding-year bonus; candidates scoring below `0.7` are
discarded and the result is sorted descending by score. -/
theorem C7_manufacturer_scoring (db : DB) (d : ManufacturerData) :
    (∀ t ∈ find_manufacturer_matches db d,
      t.2.2 ∈ db.manufacturers ∧ t.2.2.status ≠ some "defunct" ∧
      t.1 = t.2.2.id ∧ t.2.1 = manufacturerConfidence d t.2.2 ∧
      t.2.1 ≥ 7/10) ∧
    (∀ m ∈ db.manufacturers, m.status ≠ some "defunct" →
      manufacturerConfidence d m ≥ 7/10 →
      (m.id, manufacturerConfidence d m, m) ∈ find_manufacturer_matches db d) ∧
    (find_manufacturer_matches db d).Sorted (fun a b => b.2.1 ≤ a.2.1) ∧
    (∀ m : ManufacturerRow,
      manufacturerConfidence d m =
        calculate_similarity (d.name.getD "") (m.name.getD "") +
        (if strTruthy d.country ∧
            (strTruthy m.country = false ∨ d.country = m.country)
         then 1/10 else 0) +
        (if intTruthy d.founded_year ∧
            (intTruthy m.founded_year = false ∨
              d.founded_year = m.founded_year)
         then 1/10 else 0)) := by
  refine ⟨?_, ?_, ?_, ?_⟩
  · intro t ht
    unfold find_manufacturer_matches at ht
    rw [mem_sortDesc] at ht
    rcases List.mem_filterMap.mp ht with ⟨m, hm, hf⟩
    rw [List.mem_filter] at hm
    by_cases hc : manufacturerConfidence d m ≥ 7/10
    · rw [if_pos hc] at hf
      injection hf with hf
      rw [← hf]
      refine ⟨hm.1, by simpa using hm.2, rfl, rfl, hc⟩
    · rw [if_neg hc] at hf
      exact absurd hf (by simp)
  · intro m hm hstat hc
    unfold find_manufacturer_matches
    rw [mem_sortDesc]
    rw [List.mem_filterMap]
    refine ⟨m, ?_, ?_⟩
    · rw [List.mem_filter]
      exact ⟨hm, by simpa using hstat⟩
    · rw [if_pos hc]
  · exact sortDesc_sorted _ _
  · intro m
    by_cases h1 : strTruthy d.country <;>
    by_cases h2 : strTruthy m.country <;>
    by_cases h3 : d.country = m.country <;>
    by_cases h4 : intTruthy d.founded_year <;>
    by_cases h5 : intTruthy m.founded_year <;>
    by_cases h6 : d.founded_year = m.founded_year <;>
    simp [manufacturerConfidence, h1, h2, h3, h4, h5, h6]

/-- C7 witness: the qualifying stored `"Gibson"` (score `1.1 ≥ 0.7`)
appears among the matches of the same-named submission, with the scoring
law evaluated at it. -/
theorem C7_witness :
    (1, manufacturerConfidence exC7d exC7row, exC7row) ∈
      find_manufacturer_matches exC7db exC7d ∧
    (find_manufacturer_matches exC7db exC7d).Sorted
      (fun a b => b.2.1 ≤ a.2.1) := by
  have hsim : calculate_similarity "Gibson" "Gibson" = 1 :=
    calculate_similarity_of_normalize_eq rfl
  have h := C7_manufacturer_scoring exC7db exC7d
  have hconf : manufacturerConfidence exC7d exC7row = 11/10 := by
    norm_num +decide [manufacturerConfidence, exC7d, exC7row, strTruthy,
      intTruthy, hsim]
  refine ⟨?_, h.2.2.1⟩
  have hmem := h.2.1 exC7row (by simp [exC7db]) (by decide)
    (by rw [hconf]; norm_num)
  simpa using hmem

/-- A flagged validation is always a structurally valid one: the
manual-review suggestion only arises from the conflict branch. -/
theorem validate_manufacturer_manual_review_valid (db : DB)
    (d : ManufacturerData)
    (h : (validate_manufacturer db d).suggested_resolution =
      some ConflictResolution.MANUAL_REVIEW) :
    (validate_manufacturer db d).is_valid = true := by
  unfold validate_manufacturer at h ⊢
  split at h
  · simp at h
  · split at h
    · simp at h
    · split at h
      · rename_i hge
        rw [if_pos hge]
      · rename_i hge
        rw [if_neg hge]
        split at h
        · rename_i hmid
          rw [if_pos hmid]
        · simp at h

/-- C4, confirmed: for schema-valid manufacturer and model payloads the
resolution action is a pure function of the best candidate score — at least
`0.95` merges as an update, at least `0.85` but below `0.95` flags manual
review with a conflict note attached and performs no insert, and below
`0.85` (or no candidate) inserts; in particular a manufacturer whose name
equals an existing active manufacturer's name up to case and whitespace
resolves to update. -/
theorem C4_resolution_policy :
    (∀ (db : DB) (d : ManufacturerData), manufacturerSchemaError d = none →
      (find_manufacturer_matches db d = [] →
        validate_manufacturer db d =
          { is_valid := true, action := "insert", confidence := 1 }) ∧
      (∀ best rest, find_manufacturer_matches db d = best :: rest →
        (best.2.1 ≥ 95/100 →
          (validate_manufacturer db d).action = "update" ∧
          (validate_manufacturer db d).target_id = some best.1) ∧
        (85/100 ≤ best.2.1 ∧ best.2.1 < 95/100 →
          (validate_manufacturer db d).action = "conflict" ∧
          (validate_manufacturer db d).suggested_resolution =
            some ConflictResolution.MANUAL_REVIEW ∧
          (validate_manufacturer db d).conflicts ≠ []) ∧
        (best.2.1 < 85/100 →
          validate_manufacturer db d =
            { is_valid := true, action := "insert", confidence := 1 }))) ∧
    (∀ (db : DB) (d : ModelData) (manufacturer : ManufacturerRow),
      modelSchemaError d = none →
      db.manufacturers.find? (fun m => sqlLowerEq m.name d.manufacturer_name)
        = some manufacturer →
      (find_model_matches db d manufacturer.id = [] →
        validate_model db d =
          { is_valid := true, action := "insert", confidence := 1 }) ∧
      (∀ best rest,
        find_model_matches db d manufacturer.id = best :: rest →
        (best.2.1 ≥ 95/100 →
          (validate_model db d).action = "update" ∧
          (validate_model db d).target_id = some best.1) ∧
        (85/100 ≤ best.2.1 ∧ best.2.1 < 95/100 →
          (validate_model db d).action = "conflict" ∧
          (validate_model db d).suggested_resolution =
            some ConflictResolution.MANUAL_REVIEW ∧
          (validate_model db d).conflicts ≠ []) ∧
        (best.2.1 < 85/100 →
          validate_model db d =
            { is_valid := true, action := "insert", confidence := 1 }))) ∧
    (∀ (db : DB) (sub : Submission) (i : Nat) (md : ManufacturerData),
      sub.manufacturer = some md →
      (validate_manufacturer db md).suggested_resolution =
        some ConflictResolution.MANUAL_REVIEW →
      (process_single_submission db sub i).2 = db ∧
      (process_single_submission db sub i).1.ids_created = {} ∧
      (process_single_submission db sub i).1.manual_review_needed = true) ∧
    (∀ (db : DB) (d : ManufacturerData) (m : ManufacturerRow),
      manufacturerSchemaError d = none → m ∈ db.manufacturers →
      m.status = some "active" →
      normalize_string (d.name.getD "") = normalize_string (m.name.getD "") →
      (validate_manufacturer db d).action = "update") := by
  refine ⟨?_, ?_, ?_, ?_⟩
  · intro db d hschema
    constructor
    · intro hempty
      simp [validate_manufacturer, hschema, hempty]
    · intro best rest hcons
      refine ⟨?_, ?_, ?_⟩
      · intro hge
        simp [validate_manufacturer, hschema, hcons, if_pos hge]
      · intro ⟨hlo, hhi⟩
        have hnot : ¬ best.2.1 ≥ 95/100 := by exact not_le.mpr hhi
        simp [validate_manufacturer, hschema, hcons, if_neg hnot,
          if_pos (show best.2.1 ≥ 85/100 from hlo)]
      · intro hlt
        have hn1 : ¬ best.2.1 ≥ 95/100 := by
          refine not_le.mpr (lt_trans hlt ?_)
          norm_num
        have hn2 : ¬ best.2.1 ≥ 85/100 := not_le.mpr hlt
        simp [validate_manufacturer, hschema, hcons, if_neg hn1, if_neg hn2]
  · intro db d manufacturer hschema hfind
    constructor
    · intro hempty
      simp [validate_model, hschema, hfind, hempty]
    · intro best rest hcons
      refine ⟨?_, ?_, ?_⟩
      · intro hge
        simp [validate_model, hschema, hfind, hcons, if_pos hge]
      · intro ⟨hlo, hhi⟩
        have hnot : ¬ best.2.1 ≥ 95/100 := by exact not_le.mpr hhi
        simp [validate_model, hschema, hfind, hcons, if_neg hnot,
          if_pos (show best.2.1 ≥ 85/100 from hlo)]
      · intro hlt
        have hn1 : ¬ best.2.1 ≥ 95/100 := by
          refine not_le.mpr (lt_trans hlt ?_)
          norm_num
        have hn2 : ¬ best.2.1 ≥ 85/100 := not_le.mpr hlt
        simp [validate_model, hschema, hfind, hcons, if_neg hn1, if_neg hn2]
  · intro db sub i md hsub hman
    have hvalid := validate_manufacturer_manual_review_valid db md hman
    have hphase : manufacturerPhase db sub { index := i } =
        .error ({ index := i, manual_review_needed := true, conflicts :=
          ["Manufacturer conflict: " ++ String.intercalate ", "
            (validate_manufacturer db md).conflicts] }, db) := by
      simp only [manufacturerPhase, hsub]
      rw [if_neg (by rw [hvalid]; simp), if_pos (by rw [hman])]
      rfl
    simp only [process_single_submission, hphase]
    simp
  · intro db d m hschema hmem hstatus hnorm
    have hsim : calculate_similarity (d.name.getD "") (m.name.getD "") = 1 :=
      calculate_similarity_of_normalize_eq hnorm
    have hconf : manufacturerConfidence d m ≥ 1 := by
      unfold manufacturerConfidence
      rw [hsim]
      have h1 : (0:ℚ) ≤ (if (if strTruthy d.country && strTruthy m.country
          then d.country = m.country else True) ∧ strTruthy d.country
          then (1/10 : ℚ) else 0) := by positivity
      have h2 : (0:ℚ) ≤ (if (if intTruthy d.founded_year &&
          intTruthy m.founded_year then d.founded_year = m.founded_year
          else True) ∧ intTruthy d.founded_year then (1/10 : ℚ) else 0) := by
        positivity
      linarith
    have hmemmatch : (m.id, manufacturerConfidence d m, m) ∈
        find_manufacturer_matches db d := by
      unfold find_manufacturer_matches
      rw [mem_sortDesc, List.mem_filterMap]
      refine ⟨m, ?_, ?_⟩
      · rw [List.mem_filter]
        refine ⟨hmem, ?_⟩
        rw [hstatus]
        decide
      · rw [if_pos (by linarith)]
    cases hcons : find_manufacturer_matches db d with
    | nil =>
      rw [hcons] at hmemmatch
      simp at hmemmatch
    | cons best rest =>
      have hform : find_manufacturer_matches db d =
          sortDesc (fun t : MfrMatch => t.2.1)
            ((db.manufacturers.filter
              fun m2 => m2.status ≠ some "defunct").filterMap
              fun m2 =>
                if manufacturerConfidence d m2 ≥ 7/10 then
                  some (m2.id, manufacturerConfidence d m2, m2)
                else none) := rfl
      have hcons2 : sortDesc (fun t : MfrMatch => t.2.1)
          ((db.manufacturers.filter
            fun m2 => m2.status ≠ some "defunct").filterMap
            fun m2 =>
              if manufacturerConfidence d m2 ≥ 7/10 then
                some (m2.id, manufacturerConfidence d m2, m2)
              else none) = best :: rest := by
        rw [← hform]
        exact hcons
      have hmem2 : (m.id, manufacturerConfidence d m, m) ∈
          (db.manufacturers.filter
            fun m2 => m2.status ≠ some "defunct").filterMap
            fun m2 =>
              if manufacturerConfidence d m2 ≥ 7/10 then
                some (m2.id, manufacturerConfidence d m2, m2)
              else none := by
        have hx := hmemmatch
        rw [hform, mem_sortDesc] at hx
        exact hx
      have hmax := sortDesc_head_max (fun t : MfrMatch => t.2.1) _ best rest
        hcons2 _ hmem2
      have hbest : best.2.1 ≥ 95/100 := by
        simp only at hmax
        linarith
      simp [validate_manufacturer, hschema, hcons, if_pos hbest]

/-- C4 witness: a submission naming the stored active `"Gibson"` (equal
name, no conflicting data) resolves to update, by the policy theorem. -/
theorem C4_witness :
    (validate_manufacturer exC7db exC7d).action = "update" :=
  C4_resolution_policy.2.2.2 exC7db exC7d exC7row (by decide)
    (by simp [exC7db]) rfl (by decide)

end StringAuthority
